import Mathlib

/-!
Verification of the UDP-Communication-FIITMETEO gateway (`server.py`,
`backup_server.py`) against its natural-language specification.

The development is a shallow embedding of the programs' pure core:

* the CRC-32 checksum (`crc32_bytes`, `crc32_of_json_data`) and the
  canonical JSON serialization feeding it (`dumps`), modelling Python's
  `json.dumps(obj, separators=(",", ":"), sort_keys=True)` with the default
  `ensure_ascii=True` escaping;
* the registry state of the `Server` class (the dictionaries `tokens`,
  `sensor_addr`, `id_type`, `active_by_type`, `last_seen`, `_probe`,
  `_last_resend_req`) as association lists keyed the way Python keys them;
* the message handlers `handle_register`, `handle_data`,
  `handle_activity_ack` of both `server.py` and `backup_server.py` (the
  monitor loop body and the activity-ack handler are line-for-line the same
  in the two files and are embedded once), as state-transforming functions
  that also return the list of emitted replies / notifications;
* `time.time()` values as exact integers (every time constant the code
  compares against — 15.0, 5.0, 1.0, 0 — is a whole number of seconds,
  so integer-valued instants exercise every branch; two events inside
  the same second are modelled by equal timestamps), and Python scalars
  that can appear in a decoded JSON message as `PyVal`, with Python's
  cross-type `==` (`bool` compares as an `int`, `float` compares
  numerically) and truthiness.

Logging-only prints (the payload dump and the low-battery line) are not
modelled; the DISCONNECTED / RECONNECTED notifications, which the spec
treats as observable events, are.
-/

namespace FIITMeteo

set_option maxRecDepth 80000

/-! ## Python scalar values and Python equality -/

/-- A Python scalar as produced by `json.loads` for a message field:
`int`, `bool`, `str` or `float`.  Floats are modelled as exact rationals
(every float whose value the programs compare is an integer far below
2^53, where IEEE doubles are exact). -/
inductive PyVal where
  | int (n : Int)
  | bool (b : Bool)
  | str (s : String)
  | float (q : Rat)
deriving DecidableEq, Repr

/-- Numeric value of a Python scalar, if it has one.  In Python, `bool`
is a subclass of `int` with `True == 1` and `False == 0`. -/
def pyNum : PyVal → Option Rat
  | .int n => some (n : Rat)
  | .bool b => some (if b then 1 else 0)
  | .float q => some q
  | .str _ => none

/-- Python `==` on scalars: numeric values compare numerically across
`int` / `bool` / `float`; strings compare to strings; a numeric value and
a string are unequal. -/
def pyEq (a b : PyVal) : Bool :=
  match pyNum a, pyNum b with
  | some x, some y => x = y
  | _, _ =>
    match a, b with
    | .str s, .str t => s = t
    | _, _ => false

/-- Python `==` lifted to optional values; `None == None` is `True` and
`None` is unequal to every scalar. -/
def pyEqO : Option PyVal → Option PyVal → Bool
  | none, none => true
  | some a, some b => pyEq a b
  | _, _ => false

/-- Python truthiness of a scalar (`0`, `0.0`, `False` and `""` are falsy). -/
def pyTruthy : PyVal → Bool
  | .int n => n ≠ 0
  | .bool b => b
  | .str s => s ≠ ""
  | .float q => q ≠ 0

/-- Python `isinstance(v, int)`: true for `int` and — because `bool` is a
subclass of `int` — for `bool`, false for `float` and `str`. -/
def pyIsInstInt : PyVal → Bool
  | .int _ => true
  | .bool _ => true
  | _ => false

/-- Time instants (`time.time()` values), modelled as exact integer
seconds; see the header comment. -/
abbrev Time := Int

/-! ## JSON data objects and the canonical serialization

`crc32_of_json_data` serializes the `data` field of a message with
`json.dumps(data_obj, separators=(",", ":"), sort_keys=True)`:
no inter-token whitespace, object keys sorted (Python string order =
code-point lexicographic), default `ensure_ascii=True` escaping. -/

/-- A JSON value as can appear in a message's `data` field. -/
inductive Json where
  | null
  | bool (b : Bool)
  | int (n : Int)
  | str (s : String)
  | arr (xs : List Json)
  | obj (kvs : List (String × Json))
deriving Repr

/-- Decimal representation of an integer, as Python's `repr`. -/
def intRepr (n : Int) : String :=
  if n < 0 then "-" ++ Nat.repr n.natAbs else Nat.repr n.natAbs

/-- Lowercase hexadecimal digit. -/
def hexDigit (n : Nat) : Char :=
  if n < 10 then Char.ofNat (48 + n) else Char.ofNat (87 + n)

/-- Four lowercase hex digits, as in Python's `\uXXXX` escapes. -/
def hex4 (n : Nat) : String :=
  String.mk [hexDigit (n / 4096 % 16), hexDigit (n / 256 % 16),
             hexDigit (n / 16 % 16), hexDigit (n % 16)]

/-- Python `json` `\uXXXX` escape of a code point; code points above
the basic multilingual plane become a UTF-16 surrogate pair. -/
def uEscape (n : Nat) : String :=
  if n < 0x10000 then
    "\\u" ++ hex4 n
  else
    "\\u" ++ hex4 (0xD800 + (n - 0x10000) / 0x400) ++
    "\\u" ++ hex4 (0xDC00 + (n - 0x10000) % 0x400)

/-- Escaping of one character inside a JSON string literal with Python's
default `ensure_ascii=True`: `\` `"` and the usual control shorthands,
`\uXXXX` for every other character outside `0x20`–`0x7e`. -/
def escapeChar (c : Char) : String :=
  if c = '\\' then "\\\\"
  else if c = '"' then "\\\""
  else if c = '\n' then "\\n"
  else if c = '\r' then "\\r"
  else if c = '\t' then "\\t"
  else if c.toNat = 8 then "\\b"
  else if c.toNat = 12 then "\\f"
  else if c.toNat < 0x20 ∨ 0x7e < c.toNat then uEscape c.toNat
  else String.singleton c

/-- A JSON string literal: quotes around the escaped characters. -/
def quoteStr (s : String) : String :=
  "\"" ++ String.join (s.data.map escapeChar) ++ "\""

/-- Comma-separated join, as `",".join(...)`. -/
def joinComma (l : List String) : String :=
  String.intercalate "," l

/-- Code-point lexicographic `≤` on character lists: Python's string
comparison. -/
def charListLe : List Char → List Char → Bool
  | [], _ => true
  | _ :: _, [] => false
  | a :: as, b :: bs =>
    if a.toNat < b.toNat then true
    else if b.toNat < a.toNat then false
    else charListLe as bs

/-- Python's `s <= t` on strings. -/
def keyLe (s t : String) : Bool :=
  charListLe s.data t.data

/-- Stable insertion (by string key, code-point order) into a sorted list
of key-tagged rendered fragments. -/
def insKeyS (kv : String × String) : List (String × String) → List (String × String)
  | [] => [kv]
  | x :: xs => if keyLe kv.1 x.1 then kv :: x :: xs else x :: insKeyS kv xs

/-- Stable insertion sort by string key — the `sort_keys=True` ordering. -/
def sortPairs : List (String × String) → List (String × String)
  | [] => []
  | x :: xs => insKeyS x (sortPairs xs)

mutual

/-- Canonical serialization: `json.dumps(j, separators=(",", ":"),
sort_keys=True)`.  An object's fields are each rendered as
`"key":value` and emitted in sorted key order (rendering a field and then
stable-sorting the rendered fields by their original key is the same
process as Python's sort-then-render, since the key is carried along). -/
def dumps : Json → String
  | .null => "null"
  | .bool true => "true"
  | .bool false => "false"
  | .int n => intRepr n
  | .str s => quoteStr s
  | .arr xs => "[" ++ joinComma (dumpsList xs) ++ "]"
  | .obj kvs => "\x7b" ++ joinComma ((sortPairs (dumpsPairs kvs)).map (·.2)) ++ "\x7d"

/-- Rendering of the elements of a JSON array. -/
def dumpsList : List Json → List String
  | [] => []
  | x :: xs => dumps x :: dumpsList xs

/-- Rendering of the fields of a JSON object, each tagged with its key
for the subsequent key sort. -/
def dumpsPairs : List (String × Json) → List (String × String)
  | [] => []
  | (k, v) :: xs => (k, quoteStr k ++ ":" ++ dumps v) :: dumpsPairs xs

end

/-- UTF-8 encoding of one code point. -/
def utf8Char (n : Nat) : List Nat :=
  if n < 0x80 then [n]
  else if n < 0x800 then [0xC0 + n / 0x40, 0x80 + n % 0x40]
  else if n < 0x10000 then
    [0xE0 + n / 0x1000, 0x80 + n / 0x40 % 0x40, 0x80 + n % 0x40]
  else
    [0xF0 + n / 0x40000, 0x80 + n / 0x1000 % 0x40,
     0x80 + n / 0x40 % 0x40, 0x80 + n % 0x40]

/-- UTF-8 bytes of a string (`.encode("utf-8")`). -/
def strBytes (s : String) : List Nat :=
  (s.data.map (fun c => utf8Char c.toNat)).flatten

/-! ## CRC-32 (from the source)

`crc32_bytes` is the bitwise loop of `server.py` lines 9–16 (identical in
`backup_server.py` and `tester.py`).  Python's
`mask = -(crc & 1); crc = (crc >> 1) ^ (0xEDB88320 & mask)` selects the
polynomial exactly when the low bit is set (`mask` is `-1`, all ones, or
`0`), which is the conditional xor below. -/

/-- One bit round of the CRC loop. -/
def crcRound (crc : Nat) : Nat :=
  (crc >>> 1) ^^^ (if crc % 2 = 1 then 0xEDB88320 else 0)

/-- `n` bit rounds. -/
def crcRounds : Nat → Nat → Nat
  | 0, c => c
  | n + 1, c => crcRounds n (crcRound c)

/-- `crc32_bytes` from the source: init `0xFFFFFFFF`, per byte xor the
byte in and run 8 bit rounds, final xor `0xFFFFFFFF`. -/
def crc32_bytes (data : List Nat) : Nat :=
  (data.foldl (fun crc b => crcRounds 8 (crc ^^^ b)) 0xFFFFFFFF) ^^^ 0xFFFFFFFF

/-- `crc32_of_json_data` from the source: CRC-32 of the UTF-8 bytes of
the canonical serialization, masked to 32 bits. -/
def crc32_of_json_data (j : Json) : Nat :=
  crc32_bytes (strBytes (dumps j)) &&& 0xFFFFFFFF

/-! ## The CRC-32/ISO-HDLC reference function

Formalised from the specification's words: "polynomial 0xEDB88320
reflected, initial value 0xFFFFFFFF, final XOR 0xFFFFFFFF, bit-reflected
input/output".  The reference consumes the message bit by bit,
least-significant bit of each byte first (the bit-reflected input order);
with the reflected polynomial the register then holds the bit-reflected
remainder throughout, so the output is bit-reflected as well. -/

/-- One bit of the reflected CRC division: xor the incoming bit into the
low end of the register, shift right, xor the reflected polynomial in
when the bit that fell off was set. -/
def isoHdlcBitStep (c bit : Nat) : Nat :=
  (c >>> 1) ^^^ (if (c ^^^ bit) % 2 = 1 then 0xEDB88320 else 0)

/-- The `n` low bits of a byte, least significant first — the
bit-reflected transmission order of one byte. -/
def lsbBits : Nat → Nat → List Nat
  | 0, _ => []
  | n + 1, b => b % 2 :: lsbBits n (b >>> 1)

/-- CRC-32/ISO-HDLC of a byte sequence per the specification's
parameters. -/
def crc32_iso_hdlc (msg : List Nat) : Nat :=
  ((msg.map (lsbBits 8)).flatten.foldl isoHdlcBitStep 0xFFFFFFFF) ^^^ 0xFFFFFFFF

/-! ### Equivalence of the source loop with the reference -/

theorem crcRound_xor (c b : Nat) :
    crcRound (c ^^^ b) = isoHdlcBitStep c (b % 2) ^^^ (b >>> 1) := by
  unfold crcRound isoHdlcBitStep
  have h1 : (c ^^^ b) >>> 1 = (c >>> 1) ^^^ (b >>> 1) := by
    simp only [Nat.shiftRight_one]
    exact Nat.xor_div_two
  have h2 : ((c ^^^ b) % 2 = 1) ↔ ((c ^^^ b % 2) % 2 = 1) := by
    rw [Nat.xor_mod_two_eq_one, Nat.xor_mod_two_eq_one]
    omega
  have h3 : (if (c ^^^ b) % 2 = 1 then 0xEDB88320 else 0)
      = (if (c ^^^ b % 2) % 2 = 1 then 0xEDB88320 else 0) := by
    simp only [h2]
  rw [h1, h3, Nat.xor_assoc, Nat.xor_assoc, Nat.xor_comm (b >>> 1)]

theorem crcRounds_eq_foldBits (n : Nat) :
    ∀ c b, b < 2 ^ n → crcRounds n (c ^^^ b) = (lsbBits n b).foldl isoHdlcBitStep c := by
  induction n with
  | zero =>
    intro c b hb
    interval_cases b
    simp [crcRounds, lsbBits]
  | succ n ih =>
    intro c b hb
    have hb' : b >>> 1 < 2 ^ n := by
      rw [Nat.shiftRight_one]
      omega
    calc crcRounds (n + 1) (c ^^^ b)
        = crcRounds n (crcRound (c ^^^ b)) := rfl
      _ = crcRounds n (isoHdlcBitStep c (b % 2) ^^^ (b >>> 1)) := by rw [crcRound_xor]
      _ = (lsbBits n (b >>> 1)).foldl isoHdlcBitStep (isoHdlcBitStep c (b % 2)) := ih _ _ hb'
      _ = (lsbBits (n + 1) b).foldl isoHdlcBitStep c := rfl

theorem crc_fold_eq_bits (data : List Nat) :
    ∀ init, (∀ b ∈ data, b < 256) →
      data.foldl (fun crc b => crcRounds 8 (crc ^^^ b)) init
        = ((data.map (lsbBits 8)).flatten).foldl isoHdlcBitStep init := by
  induction data with
  | nil => intro init _; rfl
  | cons x xs ih =>
    intro init h
    simp only [List.foldl_cons, List.map_cons, List.flatten_cons, List.foldl_append]
    rw [crcRounds_eq_foldBits 8 init x (h x (by simp))]
    exact ih _ (fun b hb => h b (by simp [hb]))

theorem crc32_bytes_eq_iso_hdlc (data : List Nat) (h : ∀ b ∈ data, b < 256) :
    crc32_bytes data = crc32_iso_hdlc data := by
  unfold crc32_bytes crc32_iso_hdlc
  rw [crc_fold_eq_bits data 0xFFFFFFFF h]

/-- Every byte produced by the UTF-8 encoder of a valid code point is
below 256. -/
theorem utf8Char_lt (n : Nat) (hn : n < 1114112) : ∀ b ∈ utf8Char n, b < 256 := by
  intro b hb
  unfold utf8Char at hb
  split at hb <;> [skip; split at hb] <;> [skip; skip; split at hb] <;>
    simp_all <;> omega

/-- Code points of Lean characters are valid Unicode scalar values. -/
theorem char_toNat_lt (c : Char) : c.toNat < 1114112 := by
  rcases c.valid with h | ⟨_, h⟩
  · exact Nat.lt_trans h (by norm_num)
  · exact h

/-- Every byte of a UTF-8 encoded string is below 256. -/
theorem strBytes_lt (s : String) : ∀ b ∈ strBytes s, b < 256 := by
  intro b hb
  unfold strBytes at hb
  rw [List.mem_flatten] at hb
  obtain ⟨l, hl, hbl⟩ := hb
  rw [List.mem_map] at hl
  obtain ⟨c, _, rfl⟩ := hl
  exact utf8Char_lt _ (char_toNat_lt c) b hbl

/-! ## Registry state and message handling

Python dictionaries are association lists: lookup finds the first
binding, assignment replaces the first binding in place or appends a new
one at the end, `pop` removes the first binding.  Starting from the empty
registry these lists never hold two bindings for one key, so they agree
with Python dictionaries. -/

/-- `d.get(k)`. -/
def lookupA {α β : Type} [DecidableEq α] : List (α × β) → α → Option β
  | [], _ => none
  | (a, b) :: t, k => if a = k then some b else lookupA t k

/-- `d[k] = v`. -/
def updateA {α β : Type} [DecidableEq α] : List (α × β) → α → β → List (α × β)
  | [], k, v => [(k, v)]
  | (a, b) :: t, k, v => if a = k then (k, v) :: t else (a, b) :: updateA t k v

/-- `d.pop(k, None)`: the removed value (if any) and the remaining map. -/
def popA {α β : Type} [DecidableEq α] : List (α × β) → α → Option β × List (α × β)
  | [], _ => (none, [])
  | (a, b) :: t, k =>
    if a = k then (some b, t)
    else
      let r := popA t k
      (r.1, (a, b) :: r.2)

/-- Keys of the Python dictionaries holding per-sensor data.  Message
fields can be absent, and `backup_server.py` indexes `last_seen` and
`id_type` with the raw `message.get("sensor_id")`, which may be `None`;
`none` models Python's `None` key. -/
abbrev K := Option String

/-- Transport endpoints are opaque; only equality matters.  A `(host,
port)` tuple is always truthy in Python, so no falsy case is needed. -/
abbrev Addr := String

/-- The probe bookkeeping dictionary `_probe[sensor_id]`. -/
structure ProbeState where
  attempts : Nat
  waiting : Bool
  deadline : Time
  next : Time
deriving DecidableEq, Repr

/-- The mutable registry of the `Server` class (both files declare the
same seven dictionaries). -/
structure ServerState where
  tokens : List (K × PyVal)
  sensor_addr : List (K × Addr)
  id_type : List (K × String)
  active_by_type : List (String × String)
  last_seen : List (K × Time)
  probe : List (K × ProbeState)
  last_resend_req : List (K × Time)
deriving DecidableEq, Repr

/-- The state right after `Server.__init__`. -/
def initState : ServerState := ⟨[], [], [], [], [], [], []⟩

/-- The fields of a decoded inbound message that the handlers read.
`none` is `message.get(...)` returning `None`. -/
structure Msg where
  sensor_id : Option String
  sensor_type : Option String
  token : Option PyVal
  data : Option Json
  crc32 : Option PyVal

/-- Observable actions of a handler or monitor pass: the replies passed
to `safe_send` (with their claim-relevant fields) and the DISCONNECTED /
RECONNECTED notifications.  Reply timestamps (`int(time.time())`) carry
no protocol information and are omitted. -/
inductive Out where
  | register_ack (sensor_id : String) (token : PyVal)
  | register_denied (sensor_type : String) (active_sensor_id : String)
  | invalid_token (sensor_id : Option String)
  | request_resend (sensor_id : Option String)
  | data_ack (sensor_id : Option String)
  | activity_check (sensor_id : K) (sensor_type : String) (token : Option PyVal) (attempt : Nat)
  | disconnected (sensor_id : K)
  | reconnected (sensor_id : K)
deriving DecidableEq, Repr

/-- Python truthiness of `message.get("sensor_id")` (`None` and `""` are
falsy). -/
def sidOk : Option String → Bool
  | some s => s ≠ ""
  | none => false

/-- Python truthiness of `message.get("token")`. -/
def tokOk : Option PyVal → Bool
  | some t => pyTruthy t
  | none => false

/-- The accepted-registration tail shared by both `handle_register`
bodies: store the token, remember address and type, claim the category,
refresh `last_seen`, reply `register_ack`. -/
def acceptRegister (s : ServerState) (sid stype : String) (addr : Addr) (tokv : PyVal)
    (now : Time) : ServerState × List Out :=
  ({ s with
      tokens := updateA s.tokens (some sid) tokv
      sensor_addr := updateA s.sensor_addr (some sid) addr
      id_type := updateA s.id_type (some sid) stype
      active_by_type := updateA s.active_by_type stype sid
      last_seen := updateA s.last_seen (some sid) now },
   [.register_ack sid tokv])

/-- `Server.handle_register` of `server.py` (lines 157–182).  The fresh
token `random.randint(100000, 999999)` is passed in as `tok`. -/
def handle_register (s : ServerState) (m : Msg) (addr : Addr) (tok : Int) (now : Time) :
    ServerState × List Out :=
  if sidOk m.sensor_id = false then (s, [])
  else
    let sid := m.sensor_id.getD ""
    let stype := m.sensor_type.getD "UNKNOWN"
    match lookupA s.active_by_type stype with
    | some active =>
      if active ≠ sid then (s, [.register_denied stype active])
      else acceptRegister s sid stype addr (.int tok) now
    | none => acceptRegister s sid stype addr (.int tok) now

/-- `Server.handle_register` of `backup_server.py` (lines 81–121); the
only difference is the token `f"TOKEN_{int(time.time())}"`. -/
def handle_register_backup (s : ServerState) (m : Msg) (addr : Addr) (now : Time) :
    ServerState × List Out :=
  if sidOk m.sensor_id = false then (s, [])
  else
    let sid := m.sensor_id.getD ""
    let stype := m.sensor_type.getD "UNKNOWN"
    match lookupA s.active_by_type stype with
    | some active =>
      if active ≠ sid then (s, [.register_denied stype active])
      else acceptRegister s sid stype addr (.str ("TOKEN_" ++ intRepr now)) now
    | none => acceptRegister s sid stype addr (.str ("TOKEN_" ++ intRepr now)) now

/-- The integrity test of `server.py` line 226:
`isinstance(recv_crc, int) and recv_crc == crc32_of_json_data(data_obj)`
(the source states the negation).  `isinstance` admits `bool`. -/
def crcOk (recv : Option PyVal) (d : Json) : Bool :=
  match recv with
  | some v => pyIsInstInt v && pyEq v (.int (crc32_of_json_data d))
  | none => false

/-- The integrity test of `backup_server.py` line 152:
plain Python `recv_crc == calc_crc` with `recv_crc` possibly `None`. -/
def crcOkBackup (recv : Option PyVal) (d : Json) : Bool :=
  pyEqO recv (some (.int (crc32_of_json_data d)))

/-- The RECONNECTED notification emitted when a popped probe had made at
least one attempt (`if st and st.get("attempts", 0) > 0`). -/
def reconOut (sid : K) : Option ProbeState → List Out
  | some st => if 0 < st.attempts then [.reconnected sid] else []
  | none => []

/-- `Server.handle_data` of `server.py` (lines 199–246). -/
def handle_data (s : ServerState) (m : Msg) (addr : Addr) (now : Time) :
    ServerState × List Out :=
  if (sidOk m.sensor_id && tokOk m.token) = false then
    (s, [.invalid_token m.sensor_id])
  else if pyEqO (lookupA s.tokens m.sensor_id) m.token = false then
    (s, [.invalid_token m.sensor_id])
  else
    let sid := m.sensor_id
    let stype := m.sensor_type.getD "UNKNOWN"
    let s1 := { s with
      sensor_addr := updateA s.sensor_addr sid addr
      id_type := updateA s.id_type sid stype
      last_seen := updateA s.last_seen sid now }
    let pr := popA s1.probe sid
    let s2 := { s1 with probe := pr.2 }
    let recon := reconOut sid pr.1
    let dataObj := m.data.getD (.obj [])
    if crcOk m.crc32 dataObj then
      (s2, recon ++ [.data_ack sid])
    else
      let lastReq := (lookupA s2.last_resend_req sid).getD 0
      if 1 ≤ now - lastReq then
        ({ s2 with last_resend_req := updateA s2.last_resend_req sid now },
         recon ++ [.request_resend sid])
      else (s2, recon)

/-- `Server.handle_data` of `backup_server.py` (lines 123–170).  Note
that `last_seen`, `id_type` and the probe pop happen before the
`sensor_id`/token validation, and that there is no resend debounce. -/
def handle_data_backup (s : ServerState) (m : Msg) (addr : Addr) (now : Time) :
    ServerState × List Out :=
  let sid := m.sensor_id
  let stype := m.sensor_type.getD "UNKNOWN"
  let s1 := { s with
    last_seen := updateA s.last_seen sid now
    id_type := updateA s.id_type sid stype }
  let pr := popA s1.probe sid
  let s2 := { s1 with probe := pr.2 }
  let recon := reconOut sid pr.1
  if (sidOk m.sensor_id && tokOk m.token) = false then
    (s2, recon ++ [.invalid_token m.sensor_id])
  else if pyEqO (lookupA s2.tokens sid) m.token = false then
    (s2, recon ++ [.invalid_token m.sensor_id])
  else
    let s3 := { s2 with sensor_addr := updateA s2.sensor_addr sid addr }
    let dataObj := m.data.getD (.obj [])
    if crcOkBackup m.crc32 dataObj then
      (s3, recon ++ [.data_ack sid])
    else
      (s3, recon ++ [.request_resend sid])

/-- `Server.handle_activity_ack` (lines 184–197 of `server.py`, lines
234–247 of `backup_server.py`; the two bodies are identical). -/
def handle_activity_ack (s : ServerState) (m : Msg) (addr : Addr) (now : Time) :
    ServerState × List Out :=
  if sidOk m.sensor_id = false then (s, [])
  else if pyEqO (lookupA s.tokens m.sensor_id) m.token = false then (s, [])
  else
    let sid := m.sensor_id
    let s1 := { s with
      last_seen := updateA s.last_seen sid now
      sensor_addr := updateA s.sensor_addr sid addr }
    let pr := popA s1.probe sid
    ({ s1 with probe := pr.2 }, reconOut sid pr.1)

/-- First `if` of the monitor loop body: a probe whose waiting window
expired announces DISCONNECTED and schedules the next attempt in 5
seconds. -/
def probeStep1 (now : Time) (sid : K) (st : ProbeState) : ProbeState × List Out :=
  if st.waiting ∧ st.deadline ≤ now then
    ({ st with waiting := false, next := now + 5 }, [Out.disconnected sid])
  else (st, [])

/-- Second `if` of the monitor loop body: when not waiting, under the
10-attempt budget and past the scheduled time, and an address is known,
send an `activity_check` and open a 1-second waiting window. -/
def probeStep2 (now : Time) (s : ServerState) (sid : K) (st1 : ProbeState) :
    ProbeState × List Out :=
  if st1.waiting = false ∧ st1.attempts < 10 ∧ st1.next ≤ now then
    match lookupA s.sensor_addr sid with
    | some _ =>
      ({ st1 with attempts := st1.attempts + 1, waiting := true, deadline := now + 1 },
       [Out.activity_check sid ((lookupA s.id_type sid).getD "UNKNOWN")
          (lookupA s.tokens sid) (st1.attempts + 1)])
    | none => (st1, [])
  else (st1, [])

/-- One sensor's slice of the monitor pass (`_monitor_loop` body, lines
92–128 of `server.py`, lines 190–232 of `backup_server.py`; the bodies
are line-for-line the same).  `last_seen.get(sensor_id, now)` defaults
to `now`, so an unseen sensor is skipped.  A missing probe entry is
created as `{attempts: 0, waiting: False, deadline: 0.0, next: 0.0}`
and the entry (mutated in place in Python) is written back. -/
def tickSensor (now : Time) (s : ServerState) (sid : K) : ServerState × List Out :=
  let last := (lookupA s.last_seen sid).getD now
  if now - last < 15 then (s, [])
  else
    let st := (lookupA s.probe sid).getD ⟨0, false, 0, 0⟩
    let r1 := probeStep1 now sid st
    let r2 := probeStep2 now s sid r1.1
    ({ s with probe := updateA s.probe sid r2.1 }, r1.2 ++ r2.2)

/-- The monitor loop over a list of sensor ids, threading the state and
accumulating the emitted messages. -/
def tickFold (now : Time) : List K → ServerState × List Out → ServerState × List Out
  | [], acc => acc
  | sid :: rest, acc =>
    let r := tickSensor now acc.1 sid
    tickFold now rest (r.1, acc.2 ++ r.2)

/-- One full monitor pass: the loop over `list(self.tokens.keys())`
(the key list is snapshotted before the loop; the loop never changes
`tokens`). -/
def monitorTick (now : Time) (s : ServerState) : ServerState × List Out :=
  tickFold now (s.tokens.map (·.1)) (s, [])

/-- Reachable registry states: the empty registry, closed under every
handler of either server (any message, address and time; a register
token is any value `random.randint(100000, 999999)` can draw) and the
monitor pass. -/
inductive Reach : ServerState → Prop where
  | init : Reach initState
  | reg {s m addr tok now} : Reach s → 100000 ≤ tok → tok ≤ 999999 →
      Reach (handle_register s m addr tok now).1
  | regB {s m addr now} : Reach s → Reach (handle_register_backup s m addr now).1
  | data {s m addr now} : Reach s → Reach (handle_data s m addr now).1
  | dataB {s m addr now} : Reach s → Reach (handle_data_backup s m addr now).1
  | ack {s m addr now} : Reach s → Reach (handle_activity_ack s m addr now).1
  | tick {s now} : Reach s → Reach (monitorTick now s).1

/-! ## Association-list lemmas -/

section AssocLemmas

variable {α β : Type} [DecidableEq α]

theorem lookupA_updateA_self (l : List (α × β)) (k : α) (v : β) :
    lookupA (updateA l k v) k = some v := by
  induction l with
  | nil => simp [updateA, lookupA]
  | cons x t ih =>
    obtain ⟨a, b⟩ := x
    by_cases h : a = k
    · simp [updateA, h, lookupA]
    · simp [updateA, h, lookupA, ih]

theorem lookupA_updateA_ne (l : List (α × β)) (k k' : α) (v : β) (h : k' ≠ k) :
    lookupA (updateA l k v) k' = lookupA l k' := by
  have h' : k ≠ k' := Ne.symm h
  induction l with
  | nil => simp [updateA, lookupA, h']
  | cons x t ih =>
    obtain ⟨a, b⟩ := x
    by_cases ha : a = k
    · subst ha
      simp [updateA, lookupA, h']
    · simp only [updateA, if_neg ha, lookupA]
      by_cases ha' : a = k'
      · simp [ha']
      · simp [ha', ih]

theorem isSome_lookupA_updateA (l : List (α × β)) (k k' : α) (v : β)
    (h : (lookupA l k').isSome) : (lookupA (updateA l k v) k').isSome := by
  by_cases hk : k' = k
  · subst hk; simp [lookupA_updateA_self]
  · rwa [lookupA_updateA_ne l k k' v hk]

theorem lookupA_mem {l : List (α × β)} {k : α} {v : β} (h : lookupA l k = some v) :
    (k, v) ∈ l := by
  induction l with
  | nil => simp [lookupA] at h
  | cons x t ih =>
    obtain ⟨a, b⟩ := x
    by_cases ha : a = k
    · subst ha
      simp [lookupA] at h
      simp [h]
    · simp [lookupA, ha] at h
      simp [ih h]

theorem mem_updateA {l : List (α × β)} {k : α} {v : β} {x : α × β}
    (h : x ∈ updateA l k v) : x = (k, v) ∨ x ∈ l := by
  induction l with
  | nil => simpa [updateA] using h
  | cons y t ih =>
    obtain ⟨a, b⟩ := y
    by_cases ha : a = k
    · simp [updateA, ha] at h
      rcases h with h | h
      · exact Or.inl h
      · exact Or.inr (by simp [h])
    · simp [updateA, ha] at h
      rcases h with h | h
      · exact Or.inr (by simp [h])
      · rcases ih h with h' | h'
        · exact Or.inl h'
        · exact Or.inr (by simp [h'])

theorem popA_fst (l : List (α × β)) (k : α) : (popA l k).1 = lookupA l k := by
  induction l with
  | nil => rfl
  | cons x t ih =>
    obtain ⟨a, b⟩ := x
    by_cases ha : a = k
    · simp [popA, ha, lookupA]
    · simp [popA, ha, lookupA, ih]

theorem mem_popA {l : List (α × β)} {k : α} {x : α × β} (h : x ∈ (popA l k).2) :
    x ∈ l := by
  induction l with
  | nil => simpa [popA] using h
  | cons y t ih =>
    obtain ⟨a, b⟩ := y
    by_cases ha : a = k
    · simp [popA, ha] at h
      simp [h]
    · simp [popA, ha] at h
      rcases h with h | h
      · simp [h]
      · simp [ih h]

theorem lookupA_popA_ne (l : List (α × β)) (k k' : α) (h : k' ≠ k) :
    lookupA (popA l k).2 k' = lookupA l k' := by
  have h' : k ≠ k' := Ne.symm h
  induction l with
  | nil => rfl
  | cons x t ih =>
    obtain ⟨a, b⟩ := x
    by_cases ha : a = k
    · subst ha
      simp [popA, lookupA, h']
    · simp only [popA, if_neg ha, lookupA]
      by_cases ha' : a = k'
      · simp [ha']
      · simp [ha', ih]

/-- No two bindings share a key (always true of a Python dictionary). -/
def keysNodup (l : List (α × β)) : Prop :=
  l.Pairwise (fun x y => x.1 ≠ y.1)

theorem keysNodup_nil : keysNodup ([] : List (α × β)) := List.Pairwise.nil

theorem lookupA_eq_none {l : List (α × β)} {k : α} (h : ∀ y ∈ l, y.1 ≠ k) :
    lookupA l k = none := by
  induction l with
  | nil => rfl
  | cons x t ih =>
    obtain ⟨a, b⟩ := x
    have ha : a ≠ k := h (a, b) (by simp)
    simp only [lookupA, if_neg ha]
    exact ih (fun y hy => h y (by simp [hy]))

theorem lookupA_popA_self {l : List (α × β)} (hn : keysNodup l) (k : α) :
    lookupA (popA l k).2 k = none := by
  induction l with
  | nil => rfl
  | cons x t ih =>
    obtain ⟨a, b⟩ := x
    rcases hn with _ | ⟨hhead, htail⟩
    by_cases ha : a = k
    · subst ha
      simp only [popA, if_pos rfl]
      exact lookupA_eq_none (fun y hy => (hhead y hy).symm)
    · simp [popA, ha, lookupA, ha, ih htail]

theorem keysNodup_updateA {l : List (α × β)} (hn : keysNodup l) (k : α) (v : β) :
    keysNodup (updateA l k v) := by
  induction l with
  | nil => simp [updateA, keysNodup]
  | cons x t ih =>
    obtain ⟨a, b⟩ := x
    rcases hn with _ | ⟨hhead, htail⟩
    by_cases ha : a = k
    · subst ha
      simp only [updateA, if_pos rfl]
      exact List.Pairwise.cons hhead htail
    · simp only [updateA, if_neg ha]
      refine List.Pairwise.cons ?_ (ih htail)
      intro y hy
      rcases mem_updateA hy with rfl | hy'
      · exact ha
      · exact hhead y hy'

theorem keysNodup_popA {l : List (α × β)} (hn : keysNodup l) (k : α) :
    keysNodup (popA l k).2 := by
  induction l with
  | nil => exact keysNodup_nil
  | cons x t ih =>
    obtain ⟨a, b⟩ := x
    rcases hn with _ | ⟨hhead, htail⟩
    by_cases ha : a = k
    · subst ha
      simpa [popA] using htail
    · simp only [popA, if_neg ha]
      refine List.Pairwise.cons ?_ (ih htail)
      intro y hy
      exact hhead y (mem_popA hy)

end AssocLemmas

/-! ## Registry invariants -/

/-- Every identity holding a category slot has a complete sensor record:
a token, an address and a stored type. -/
def recordComplete (s : ServerState) : Prop :=
  ∀ c id, lookupA s.active_by_type c = some id →
    (lookupA s.tokens (some id)).isSome ∧
    (lookupA s.sensor_addr (some id)).isSome ∧
    (lookupA s.id_type (some id)).isSome

/-- Every probe entry has made at most 10 attempts. -/
def probeBound (s : ServerState) : Prop :=
  ∀ p ∈ s.probe, p.2.attempts ≤ 10

/-- The reachable-state invariant bundle. -/
def Inv (s : ServerState) : Prop :=
  recordComplete s ∧ probeBound s ∧ keysNodup s.probe

theorem inv_init : Inv initState := by
  refine ⟨?_, ?_, keysNodup_nil⟩
  · intro c id hc; simp [initState, lookupA] at hc
  · intro p hp; simp [initState] at hp

theorem inv_acceptRegister {s : ServerState} (h : Inv s) (sid stype : String)
    (addr : Addr) (tokv : PyVal) (now : Time) :
    Inv (acceptRegister s sid stype addr tokv now).1 := by
  obtain ⟨hrc, hpb, hnd⟩ := h
  refine ⟨?_, hpb, hnd⟩
  intro c id hc
  dsimp only [acceptRegister] at hc ⊢
  by_cases hcs : c = stype
  · subst hcs
    rw [lookupA_updateA_self] at hc
    cases hc
    exact ⟨by simp [lookupA_updateA_self], by simp [lookupA_updateA_self],
           by simp [lookupA_updateA_self]⟩
  · rw [lookupA_updateA_ne _ _ _ _ hcs] at hc
    obtain ⟨h1, h2, h3⟩ := hrc c id hc
    exact ⟨isSome_lookupA_updateA _ _ _ _ h1, isSome_lookupA_updateA _ _ _ _ h2,
           isSome_lookupA_updateA _ _ _ _ h3⟩

theorem inv_handle_register {s : ServerState} (h : Inv s) (m : Msg) (addr : Addr)
    (tok : Int) (now : Time) : Inv (handle_register s m addr tok now).1 := by
  unfold handle_register
  split
  · exact h
  · dsimp only
    split
    · split
      · exact h
      · exact inv_acceptRegister h _ _ _ _ _
    · exact inv_acceptRegister h _ _ _ _ _

theorem inv_handle_register_backup {s : ServerState} (h : Inv s) (m : Msg) (addr : Addr)
    (now : Time) : Inv (handle_register_backup s m addr now).1 := by
  unfold handle_register_backup
  split
  · exact h
  · dsimp only
    split
    · split
      · exact h
      · exact inv_acceptRegister h _ _ _ _ _
    · exact inv_acceptRegister h _ _ _ _ _

/-- Invariance under the state updates shared by the data and ack
handlers: the token and category maps are untouched, the other maps are
only updated key-wise, the probe map is only popped. -/
theorem inv_of_parts {s s' : ServerState} (h : Inv s)
    (htok : s'.tokens = s.tokens) (habt : s'.active_by_type = s.active_by_type)
    (haddr : s'.sensor_addr = s.sensor_addr ∨
      ∃ k a, s'.sensor_addr = updateA s.sensor_addr k a)
    (hity : s'.id_type = s.id_type ∨ ∃ k t, s'.id_type = updateA s.id_type k t)
    (hprobe : s'.probe = s.probe ∨ ∃ k, s'.probe = (popA s.probe k).2) :
    Inv s' := by
  obtain ⟨hrc, hpb, hnd⟩ := h
  refine ⟨?_, ?_, ?_⟩
  · intro c id hc
    rw [habt] at hc
    rw [htok]
    obtain ⟨h1, h2, h3⟩ := hrc c id hc
    refine ⟨h1, ?_, ?_⟩
    · rcases haddr with he | ⟨k, a, he⟩ <;> rw [he]
      · exact h2
      · exact isSome_lookupA_updateA _ _ _ _ h2
    · rcases hity with he | ⟨k, t, he⟩ <;> rw [he]
      · exact h3
      · exact isSome_lookupA_updateA _ _ _ _ h3
  · intro p hp
    rcases hprobe with he | ⟨k, he⟩ <;> rw [he] at hp
    · exact hpb p hp
    · exact hpb p (mem_popA hp)
  · rcases hprobe with he | ⟨k, he⟩ <;> rw [he]
    · exact hnd
    · exact keysNodup_popA hnd k

theorem inv_handle_data {s : ServerState} (h : Inv s) (m : Msg) (addr : Addr)
    (now : Time) : Inv (handle_data s m addr now).1 := by
  unfold handle_data
  split
  · exact h
  · split
    · exact h
    · dsimp only
      split
      · exact inv_of_parts h rfl rfl (Or.inr ⟨_, _, rfl⟩) (Or.inr ⟨_, _, rfl⟩)
          (Or.inr ⟨_, rfl⟩)
      · split
        · exact inv_of_parts h rfl rfl (Or.inr ⟨_, _, rfl⟩) (Or.inr ⟨_, _, rfl⟩)
            (Or.inr ⟨_, rfl⟩)
        · exact inv_of_parts h rfl rfl (Or.inr ⟨_, _, rfl⟩) (Or.inr ⟨_, _, rfl⟩)
            (Or.inr ⟨_, rfl⟩)

theorem inv_handle_data_backup {s : ServerState} (h : Inv s) (m : Msg) (addr : Addr)
    (now : Time) : Inv (handle_data_backup s m addr now).1 := by
  unfold handle_data_backup
  dsimp only
  split
  · exact inv_of_parts h rfl rfl (Or.inl rfl) (Or.inr ⟨_, _, rfl⟩) (Or.inr ⟨_, rfl⟩)
  · split
    · exact inv_of_parts h rfl rfl (Or.inl rfl) (Or.inr ⟨_, _, rfl⟩) (Or.inr ⟨_, rfl⟩)
    · split
      · exact inv_of_parts h rfl rfl (Or.inr ⟨_, _, rfl⟩) (Or.inr ⟨_, _, rfl⟩)
          (Or.inr ⟨_, rfl⟩)
      · exact inv_of_parts h rfl rfl (Or.inr ⟨_, _, rfl⟩) (Or.inr ⟨_, _, rfl⟩)
          (Or.inr ⟨_, rfl⟩)

theorem inv_handle_activity_ack {s : ServerState} (h : Inv s) (m : Msg) (addr : Addr)
    (now : Time) : Inv (handle_activity_ack s m addr now).1 := by
  unfold handle_activity_ack
  split
  · exact h
  · split
    · exact h
    · dsimp only
      exact inv_of_parts h rfl rfl (Or.inr ⟨_, _, rfl⟩) (Or.inl rfl) (Or.inr ⟨_, rfl⟩)

/-- A sensor's monitor slice leaves every field but `probe` unchanged. -/
theorem tickSensor_fields (now : Time) (s : ServerState) (sid : K) :
    (tickSensor now s sid).1.tokens = s.tokens ∧
    (tickSensor now s sid).1.sensor_addr = s.sensor_addr ∧
    (tickSensor now s sid).1.id_type = s.id_type ∧
    (tickSensor now s sid).1.active_by_type = s.active_by_type ∧
    (tickSensor now s sid).1.last_seen = s.last_seen ∧
    (tickSensor now s sid).1.last_resend_req = s.last_resend_req := by
  unfold tickSensor
  dsimp only
  split
  · exact ⟨rfl, rfl, rfl, rfl, rfl, rfl⟩
  · exact ⟨rfl, rfl, rfl, rfl, rfl, rfl⟩

theorem probeStep1_attempts (now : Time) (sid : K) (st : ProbeState) :
    (probeStep1 now sid st).1.attempts = st.attempts := by
  unfold probeStep1
  split <;> rfl

theorem probeStep2_attempts (now : Time) (s : ServerState) (sid : K) (st1 : ProbeState) :
    (probeStep2 now s sid st1).1.attempts = st1.attempts ∨
    ((probeStep2 now s sid st1).1.attempts = st1.attempts + 1 ∧ st1.attempts < 10) := by
  unfold probeStep2
  split
  · rename_i hc
    split
    · exact Or.inr ⟨rfl, hc.2.1⟩
    · exact Or.inl rfl
  · exact Or.inl rfl

theorem probeStep1_outs (now : Time) (sid : K) (st : ProbeState) :
    (probeStep1 now sid st).2 = [] ∨ (probeStep1 now sid st).2 = [.disconnected sid] := by
  unfold probeStep1
  split
  · exact Or.inr rfl
  · exact Or.inl rfl

theorem probeStep2_outs (now : Time) (s : ServerState) (sid : K) (st1 : ProbeState) :
    (probeStep2 now s sid st1).2 = [] ∨
    ∃ t tk, (probeStep2 now s sid st1).2 = [.activity_check sid t tk (st1.attempts + 1)] := by
  unfold probeStep2
  split
  · split
    · exact Or.inr ⟨_, _, rfl⟩
    · exact Or.inl rfl
  · exact Or.inl rfl

theorem probeStep2_at10 (now : Time) (s : ServerState) (sid : K) (st1 : ProbeState)
    (h : st1.attempts = 10) : probeStep2 now s sid st1 = (st1, []) := by
  unfold probeStep2
  rw [if_neg]
  rintro ⟨-, hlt, -⟩
  omega

/-- A sensor's monitor slice either leaves `probe` unchanged or writes a
single entry whose attempt counter stays within the budget. -/
theorem tickSensor_probe_shape (now : Time) (s : ServerState) (sid : K)
    (hb : probeBound s) :
    (tickSensor now s sid).1.probe = s.probe ∨
    ∃ st2 : ProbeState, (tickSensor now s sid).1.probe = updateA s.probe sid st2 ∧
      st2.attempts ≤ 10 := by
  unfold tickSensor
  dsimp only
  split
  · exact Or.inl rfl
  · right
    have hst : ((lookupA s.probe sid).getD ⟨0, false, 0, 0⟩).attempts ≤ 10 := by
      cases hl : lookupA s.probe sid with
      | none => simp
      | some st => simpa using hb (sid, st) (lookupA_mem hl)
    refine ⟨_, rfl, ?_⟩
    have hp1 := probeStep1_attempts now sid ((lookupA s.probe sid).getD ⟨0, false, 0, 0⟩)
    rcases probeStep2_attempts now s sid
        (probeStep1 now sid ((lookupA s.probe sid).getD ⟨0, false, 0, 0⟩)).1
      with h2 | ⟨h2, hlt⟩ <;> omega

theorem recordComplete_of_eq {s s' : ServerState} (h : recordComplete s)
    (h1 : s'.tokens = s.tokens) (h2 : s'.sensor_addr = s.sensor_addr)
    (h3 : s'.id_type = s.id_type) (h4 : s'.active_by_type = s.active_by_type) :
    recordComplete s' := by
  intro c id hc
  rw [h4] at hc
  rw [h1, h2, h3]
  exact h c id hc

theorem tickFold_fields (now : Time) : ∀ (keys : List K) (acc : ServerState × List Out),
    (tickFold now keys acc).1.tokens = acc.1.tokens ∧
    (tickFold now keys acc).1.sensor_addr = acc.1.sensor_addr ∧
    (tickFold now keys acc).1.id_type = acc.1.id_type ∧
    (tickFold now keys acc).1.active_by_type = acc.1.active_by_type ∧
    (tickFold now keys acc).1.last_seen = acc.1.last_seen ∧
    (tickFold now keys acc).1.last_resend_req = acc.1.last_resend_req := by
  intro keys
  induction keys with
  | nil => intro acc; exact ⟨rfl, rfl, rfl, rfl, rfl, rfl⟩
  | cons k rest ih =>
    intro acc
    obtain ⟨f1, f2, f3, f4, f5, f6⟩ := tickSensor_fields now acc.1 k
    obtain ⟨g1, g2, g3, g4, g5, g6⟩ :=
      ih ((tickSensor now acc.1 k).1, acc.2 ++ (tickSensor now acc.1 k).2)
    exact ⟨g1.trans f1, g2.trans f2, g3.trans f3, g4.trans f4, g5.trans f5, g6.trans f6⟩

theorem tickFold_probe_inv (now : Time) : ∀ (keys : List K) (acc : ServerState × List Out),
    probeBound acc.1 → keysNodup acc.1.probe →
    probeBound (tickFold now keys acc).1 ∧ keysNodup (tickFold now keys acc).1.probe := by
  intro keys
  induction keys with
  | nil => intro acc hb hn; exact ⟨hb, hn⟩
  | cons k rest ih =>
    intro acc hb hn
    apply ih
    · intro p hp
      rcases tickSensor_probe_shape now acc.1 k hb with he | ⟨st2, he, h10⟩ <;> rw [he] at hp
      · exact hb p hp
      · rcases mem_updateA hp with rfl | hp'
        · exact h10
        · exact hb p hp'
    · rcases tickSensor_probe_shape now acc.1 k hb with he | ⟨st2, he, _⟩ <;> rw [he]
      · exact hn
      · exact keysNodup_updateA hn k st2

theorem inv_monitorTick {s : ServerState} (h : Inv s) (now : Time) :
    Inv (monitorTick now s).1 := by
  obtain ⟨hrc, hpb, hnd⟩ := h
  unfold monitorTick
  obtain ⟨f1, f2, f3, f4, _, _⟩ := tickFold_fields now (s.tokens.map (·.1)) (s, [])
  obtain ⟨hb, hn⟩ := tickFold_probe_inv now (s.tokens.map (·.1)) (s, []) hpb hnd
  exact ⟨recordComplete_of_eq hrc f1 f2 f3 f4, hb, hn⟩

/-- Every reachable registry state satisfies the invariant bundle. -/
theorem reach_inv {s : ServerState} (h : Reach s) : Inv s := by
  induction h with
  | init => exact inv_init
  | reg _ _ _ ih => exact inv_handle_register ih _ _ _ _
  | regB _ ih => exact inv_handle_register_backup ih _ _ _
  | data _ ih => exact inv_handle_data ih _ _ _
  | dataB _ ih => exact inv_handle_data_backup ih _ _ _
  | ack _ ih => exact inv_handle_activity_ack ih _ _ _
  | tick _ ih => exact inv_monitorTick ih _

/-! ## Monitor output lemmas -/

theorem tickSensor_outs_shape (now : Time) (s : ServerState) (sid : K) :
    ∀ o ∈ (tickSensor now s sid).2, o = .disconnected sid ∨
      ∃ t tk a, o = .activity_check sid t tk a := by
  unfold tickSensor
  dsimp only
  split
  · intro o ho
    simp at ho
  · intro o ho
    rw [List.mem_append] at ho
    rcases ho with ho | ho
    · rcases probeStep1_outs now sid _ with he | he <;> rw [he] at ho
      · simp at ho
      · simp at ho
        exact Or.inl ho
    · rcases probeStep2_outs now s sid _ with he | ⟨t, tk, he⟩ <;> rw [he] at ho
      · simp at ho
      · simp at ho
        exact Or.inr ⟨t, tk, _, ho⟩

theorem tickSensor_probe_ne {sid sid' : K} (h : sid' ≠ sid) (now : Time) (s : ServerState) :
    lookupA (tickSensor now s sid).1.probe sid' = lookupA s.probe sid' := by
  unfold tickSensor
  dsimp only
  split
  · rfl
  · exact lookupA_updateA_ne _ _ _ _ h

theorem tickSensor_at10 (now : Time) (s : ServerState) (sid : K) (st : ProbeState)
    (hl : lookupA s.probe sid = some st) (h10 : st.attempts = 10) :
    (∀ o ∈ (tickSensor now s sid).2, ∀ t tk a, o ≠ .activity_check sid t tk a) ∧
    ∃ st', lookupA (tickSensor now s sid).1.probe sid = some st' ∧ st'.attempts = 10 := by
  have h10' : (probeStep1 now sid st).1.attempts = 10 := by
    rw [probeStep1_attempts]; exact h10
  have hp2 := probeStep2_at10 now s sid (probeStep1 now sid st).1 h10'
  unfold tickSensor
  dsimp only
  split
  · exact ⟨by simp, st, hl, h10⟩
  · simp only [hl, Option.getD_some]
    constructor
    · intro o ho t tk a
      rw [List.mem_append] at ho
      rcases ho with ho | ho
      · rcases probeStep1_outs now sid st with he | he <;> rw [he] at ho
        · simp at ho
        · simp at ho
          rw [ho]
          intro hcontra
          cases hcontra
      · rw [hp2] at ho
        simp at ho
    · rw [hp2]
      exact ⟨_, lookupA_updateA_self _ _ _, h10'⟩

theorem tickFold_at10 (now : Time) (sid : K) : ∀ (keys : List K) (acc : ServerState × List Out),
    (∃ st', lookupA acc.1.probe sid = some st' ∧ st'.attempts = 10) →
    (∀ o ∈ acc.2, ∀ t tk a, o ≠ Out.activity_check sid t tk a) →
    (∃ st', lookupA (tickFold now keys acc).1.probe sid = some st' ∧ st'.attempts = 10) ∧
    (∀ o ∈ (tickFold now keys acc).2, ∀ t tk a, o ≠ Out.activity_check sid t tk a) := by
  intro keys
  induction keys with
  | nil => intro acc h1 h2; exact ⟨h1, h2⟩
  | cons k rest ih =>
    intro acc h1 h2
    obtain ⟨st', hl, h10⟩ := h1
    by_cases hk : k = sid
    · subst hk
      obtain ⟨hno, hst⟩ := tickSensor_at10 now acc.1 k st' hl h10
      apply ih
      · exact hst
      · intro o ho
        rw [List.mem_append] at ho
        rcases ho with ho | ho
        · exact h2 o ho
        · exact hno o ho
    · apply ih
      · refine ⟨st', ?_, h10⟩
        rw [tickSensor_probe_ne (fun e => hk e.symm) now acc.1]
        exact hl
      · intro o ho
        rw [List.mem_append] at ho
        rcases ho with ho | ho
        · exact h2 o ho
        · intro t tk a heq
          rcases tickSensor_outs_shape now acc.1 k o ho with he | ⟨t', tk', a', he⟩
          · rw [heq] at he
            cases he
          · rw [heq] at he
            cases he
            exact hk rfl

theorem tickFold_no_recon (now : Time) : ∀ (keys : List K) (acc : ServerState × List Out),
    (∀ o ∈ acc.2, ∀ j, o ≠ Out.reconnected j) →
    ∀ o ∈ (tickFold now keys acc).2, ∀ j, o ≠ Out.reconnected j := by
  intro keys
  induction keys with
  | nil => intro acc h; exact h
  | cons k rest ih =>
    intro acc h
    apply ih
    intro o ho j
    rw [List.mem_append] at ho
    rcases ho with ho | ho
    · exact h o ho j
    · rcases tickSensor_outs_shape now acc.1 k o ho with he | ⟨t', tk', a', he⟩ <;>
        rw [he] <;> intro hcontra <;> cases hcontra

/-- The monitor pass never announces RECONNECTED. -/
theorem monitorTick_no_recon (now : Time) (s : ServerState) :
    ∀ o ∈ (monitorTick now s).2, ∀ j, o ≠ Out.reconnected j := by
  unfold monitorTick
  exact tickFold_no_recon now _ _ (by simp)

/-! ## Properties of the key sort -/

theorem charListLe_total (s : List Char) :
    ∀ t, charListLe s t = true ∨ charListLe t s = true := by
  induction s with
  | nil => intro t; exact Or.inl rfl
  | cons a as ih =>
    intro t
    cases t with
    | nil => exact Or.inr rfl
    | cons b bs =>
      unfold charListLe
      rcases Nat.lt_trichotomy a.toNat b.toNat with h | h | h
      · left; simp [h]
      · have h1 : ¬ a.toNat < b.toNat := by omega
        have h2 : ¬ b.toNat < a.toNat := by omega
        simpa [h1, h2] using ih bs
      · right; simp [h]

theorem char_toNat_inj {a b : Char} (h : a.toNat = b.toNat) : a = b := by
  have h' := congrArg Char.ofNat h
  rwa [Char.ofNat_toNat, Char.ofNat_toNat] at h'

theorem charListLe_antisymm (s : List Char) :
    ∀ t, charListLe s t = true → charListLe t s = true → s = t := by
  induction s with
  | nil =>
    intro t _ h2
    cases t with
    | nil => rfl
    | cons b bs => simp [charListLe] at h2
  | cons a as ih =>
    intro t h1 h2
    cases t with
    | nil => simp [charListLe] at h1
    | cons b bs =>
      unfold charListLe at h1 h2
      rcases Nat.lt_trichotomy a.toNat b.toNat with h | h | h
      · have h' : ¬ b.toNat < a.toNat := by omega
        simp [h, h'] at h2
      · have ha : ¬ a.toNat < b.toNat := by omega
        have hb : ¬ b.toNat < a.toNat := by omega
        simp only [if_neg ha, if_neg hb] at h1 h2
        rw [char_toNat_inj h, ih bs h1 h2]
      · have h' : ¬ a.toNat < b.toNat := by omega
        simp [h, h'] at h1

theorem charListLe_trans (s : List Char) :
    ∀ t u, charListLe s t = true → charListLe t u = true → charListLe s u = true := by
  induction s with
  | nil => intro t u _ _; rfl
  | cons a as ih =>
    intro t u h1 h2
    cases t with
    | nil => simp [charListLe] at h1
    | cons b bs =>
      cases u with
      | nil => simp [charListLe] at h2
      | cons c cs =>
        unfold charListLe at h1 h2 ⊢
        rcases Nat.lt_trichotomy a.toNat b.toNat with hab | hab | hab <;>
          rcases Nat.lt_trichotomy b.toNat c.toNat with hbc | hbc | hbc
        · have hac : a.toNat < c.toNat := by omega
          simp [hac]
        · have hac : a.toNat < c.toNat := by omega
          simp [hac]
        · have hx : ¬ b.toNat < c.toNat := by omega
          simp [hx, hbc] at h2
        · have hac : a.toNat < c.toNat := by omega
          simp [hac]
        · have e1 : ¬ a.toNat < b.toNat := by omega
          have e2 : ¬ b.toNat < a.toNat := by omega
          have e3 : ¬ b.toNat < c.toNat := by omega
          have e4 : ¬ c.toNat < b.toNat := by omega
          have e5 : ¬ a.toNat < c.toNat := by omega
          have e6 : ¬ c.toNat < a.toNat := by omega
          simp only [if_neg e1, if_neg e2, if_neg e3, if_neg e4, if_neg e5, if_neg e6]
            at h1 h2 ⊢
          exact ih bs cs h1 h2
        · have hx : ¬ b.toNat < c.toNat := by omega
          simp [hx, hbc] at h2
        · have hx : ¬ a.toNat < b.toNat := by omega
          simp [hx, hab] at h1
        · have hx : ¬ a.toNat < b.toNat := by omega
          simp [hx, hab] at h1
        · have hx : ¬ a.toNat < b.toNat := by omega
          simp [hx, hab] at h1

theorem keyLe_total (s t : String) : keyLe s t = true ∨ keyLe t s = true :=
  charListLe_total s.data t.data

theorem keyLe_antisymm {s t : String} (h1 : keyLe s t = true) (h2 : keyLe t s = true) :
    s = t :=
  String.ext (charListLe_antisymm s.data t.data h1 h2)

theorem keyLe_trans {s t u : String} (h1 : keyLe s t = true) (h2 : keyLe t u = true) :
    keyLe s u = true :=
  charListLe_trans s.data t.data u.data h1 h2

theorem mem_insKeyS {kv y : String × String} :
    ∀ {l : List (String × String)}, y ∈ insKeyS kv l ↔ y = kv ∨ y ∈ l := by
  intro l
  induction l with
  | nil => simp [insKeyS]
  | cons x xs ih =>
    unfold insKeyS
    split
    · simp
    · simp [ih]
      tauto

theorem insKeyS_perm (kv : String × String) (l : List (String × String)) :
    (insKeyS kv l).Perm (kv :: l) := by
  induction l with
  | nil => exact List.Perm.refl _
  | cons x xs ih =>
    unfold insKeyS
    split
    · exact List.Perm.refl _
    · exact (List.Perm.cons x ih).trans (List.Perm.swap kv x xs)

theorem sortPairs_perm (l : List (String × String)) : (sortPairs l).Perm l := by
  induction l with
  | nil => exact List.Perm.refl _
  | cons x xs ih =>
    exact (insKeyS_perm x (sortPairs xs)).trans (List.Perm.cons x ih)

/-- The pair ordering used by the key sort. -/
def pairLe (x y : String × String) : Prop := keyLe x.1 y.1 = true

theorem insKeyS_sorted {kv : String × String} {l : List (String × String)}
    (h : l.Pairwise pairLe) : (insKeyS kv l).Pairwise pairLe := by
  induction l with
  | nil => simp [insKeyS, List.Pairwise]
  | cons x xs ih =>
    rcases h with _ | ⟨hx, hxs⟩
    unfold insKeyS
    split
    · rename_i hle
      refine List.Pairwise.cons ?_ (List.Pairwise.cons hx hxs)
      intro y hy
      rcases List.mem_cons.mp hy with rfl | hy'
      · exact hle
      · exact keyLe_trans hle (hx y hy')
    · rename_i hgt
      have hxkv : pairLe x kv := by
        rcases keyLe_total kv.1 x.1 with h' | h'
        · exact absurd h' hgt
        · exact h'
      refine List.Pairwise.cons ?_ (ih hxs)
      intro y hy
      rcases mem_insKeyS.mp hy with rfl | hy'
      · exact hxkv
      · exact hx y hy'

theorem sortPairs_sorted (l : List (String × String)) : (sortPairs l).Pairwise pairLe := by
  induction l with
  | nil => exact List.Pairwise.nil
  | cons x xs ih => exact insKeyS_sorted ih

/-- The strict pair ordering: key below, keys distinct. -/
def pairLt (x y : String × String) : Prop := pairLe x y ∧ x.1 ≠ y.1

theorem sortPairs_eq_of_perm {l1 l2 : List (String × String)}
    (hp : l1.Perm l2) (hn : (l1.map Prod.fst).Nodup) : sortPairs l1 = sortPairs l2 := by
  haveI : IsAntisymm (String × String) pairLt :=
    ⟨fun a b ha hb => absurd (keyLe_antisymm ha.1 hb.1) ha.2⟩
  have hperm : (sortPairs l1).Perm (sortPairs l2) :=
    ((sortPairs_perm l1).trans hp).trans (sortPairs_perm l2).symm
  have hnodup1 : (sortPairs l1).Pairwise (fun x y => x.1 ≠ y.1) := by
    have : ((sortPairs l1).map Prod.fst).Nodup :=
      (((sortPairs_perm l1).map Prod.fst).symm).nodup hn
    exact (List.pairwise_map.mp this)
  have hnodup2 : (sortPairs l2).Pairwise (fun x y => x.1 ≠ y.1) := by
    have hn2 : (l2.map Prod.fst).Nodup := ((hp.map Prod.fst)).nodup hn
    have : ((sortPairs l2).map Prod.fst).Nodup :=
      (((sortPairs_perm l2).map Prod.fst).symm).nodup hn2
    exact (List.pairwise_map.mp this)
  have hs1 : (sortPairs l1).Sorted pairLt :=
    (sortPairs_sorted l1).and hnodup1
  have hs2 : (sortPairs l2).Sorted pairLt :=
    (sortPairs_sorted l2).and hnodup2
  exact List.eq_of_perm_of_sorted hperm hs1 hs2

theorem dumpsPairs_eq_map (l : List (String × Json)) :
    dumpsPairs l = l.map (fun kv => (kv.1, quoteStr kv.1 ++ ":" ++ dumps kv.2)) := by
  induction l with
  | nil => rfl
  | cons x xs ih =>
    obtain ⟨k, v⟩ := x
    show (k, quoteStr k ++ ":" ++ dumps v) :: dumpsPairs xs = _
    rw [ih]
    rfl

/-- Two objects with the same fields in different insertion orders have
the same canonical serialization (keys assumed distinct, as they are in
any Python dictionary). -/
theorem dumps_perm_invariant {l1 l2 : List (String × Json)} (hp : l1.Perm l2)
    (hn : (l1.map Prod.fst).Nodup) : dumps (.obj l1) = dumps (.obj l2) := by
  show "\x7b" ++ joinComma ((sortPairs (dumpsPairs l1)).map (·.2)) ++ "\x7d" = _
  have hperm : (dumpsPairs l1).Perm (dumpsPairs l2) := by
    rw [dumpsPairs_eq_map, dumpsPairs_eq_map]
    exact hp.map _
  have hkeys : ((dumpsPairs l1).map Prod.fst).Nodup := by
    rw [dumpsPairs_eq_map, List.map_map]
    exact hn
  rw [sortPairs_eq_of_perm hperm hkeys]
  rfl

/-! ## Handler case lemmas -/

/-- The token validation of `handle_data` fails: the message misses a
truthy `sensor_id` or `token`, or the token differs from the stored one. -/
def dataTokenRejected (s : ServerState) (m : Msg) : Prop :=
  (sidOk m.sensor_id && tokOk m.token) = false ∨
  pyEqO (lookupA s.tokens m.sensor_id) m.token = false

theorem reconOut_shape (sid : K) (p : Option ProbeState) :
    reconOut sid p = [] ∨ reconOut sid p = [.reconnected sid] := by
  cases p with
  | none => exact Or.inl rfl
  | some st =>
    by_cases h : 0 < st.attempts
    · exact Or.inr (by simp [reconOut, h])
    · exact Or.inl (by simp [reconOut, h])

theorem mem_reconOut {sid : K} {p : Option ProbeState} :
    Out.reconnected sid ∈ reconOut sid p ↔ ∃ st, p = some st ∧ 0 < st.attempts := by
  cases p with
  | none => simp [reconOut]
  | some st =>
    by_cases h : 0 < st.attempts
    · simp [reconOut, h]
    · simp [reconOut, h]

theorem handle_data_valid_parts (s : ServerState) (m : Msg) (addr : Addr) (now : Time)
    (h1 : (sidOk m.sensor_id && tokOk m.token) = true)
    (h2 : pyEqO (lookupA s.tokens m.sensor_id) m.token = true) :
    (handle_data s m addr now).1.last_seen = updateA s.last_seen m.sensor_id now ∧
    (handle_data s m addr now).1.sensor_addr = updateA s.sensor_addr m.sensor_id addr ∧
    (handle_data s m addr now).1.id_type
      = updateA s.id_type m.sensor_id (m.sensor_type.getD "UNKNOWN") ∧
    (handle_data s m addr now).1.tokens = s.tokens ∧
    (handle_data s m addr now).1.active_by_type = s.active_by_type ∧
    (handle_data s m addr now).1.probe = (popA s.probe m.sensor_id).2 ∧
    ((handle_data s m addr now).2
        = reconOut m.sensor_id (lookupA s.probe m.sensor_id) ++ [.data_ack m.sensor_id] ∧
      crcOk m.crc32 (m.data.getD (.obj [])) = true ∨
     (handle_data s m addr now).2
        = reconOut m.sensor_id (lookupA s.probe m.sensor_id) ++ [.request_resend m.sensor_id] ∧
      crcOk m.crc32 (m.data.getD (.obj [])) = false ∧
      1 ≤ now - (lookupA s.last_resend_req m.sensor_id).getD 0 ∨
     (handle_data s m addr now).2 = reconOut m.sensor_id (lookupA s.probe m.sensor_id) ∧
      crcOk m.crc32 (m.data.getD (.obj [])) = false ∧
      ¬ 1 ≤ now - (lookupA s.last_resend_req m.sensor_id).getD 0) := by
  refine ⟨?_, ?_, ?_, ?_, ?_, ?_, ?_⟩
  case refine_7 =>
    by_cases hcrc : crcOk m.crc32 (m.data.getD (.obj [])) = true
    · exact Or.inl ⟨by simp [handle_data, h1, h2, hcrc, popA_fst], hcrc⟩
    · have hcrc' : crcOk m.crc32 (m.data.getD (.obj [])) = false :=
        (Bool.eq_false_iff).mpr hcrc
      by_cases hdeb : 1 ≤ now - (lookupA s.last_resend_req m.sensor_id).getD 0
      · exact Or.inr (Or.inl
          ⟨by simp [handle_data, h1, h2, hcrc', popA_fst, hdeb], hcrc', hdeb⟩)
      · exact Or.inr (Or.inr
          ⟨by simp [handle_data, h1, h2, hcrc', popA_fst, hdeb], hcrc', hdeb⟩)
  all_goals simp [handle_data, h1, h2]
  all_goals (split <;> (try split) <;> rfl)

theorem handle_data_rejected (s : ServerState) (m : Msg) (addr : Addr) (now : Time)
    (h : dataTokenRejected s m) :
    handle_data s m addr now = (s, [.invalid_token m.sensor_id]) := by
  unfold handle_data
  by_cases h1 : (sidOk m.sensor_id && tokOk m.token) = false
  · rw [if_pos h1]
  · rw [if_neg h1]
    rcases h with h' | h'
    · exact absurd h' h1
    · rw [if_pos h']

theorem handle_ack_valid_parts (s : ServerState) (m : Msg) (addr : Addr) (now : Time)
    (h1 : sidOk m.sensor_id = true)
    (h2 : pyEqO (lookupA s.tokens m.sensor_id) m.token = true) :
    (handle_activity_ack s m addr now).1.last_seen = updateA s.last_seen m.sensor_id now ∧
    (handle_activity_ack s m addr now).1.sensor_addr
      = updateA s.sensor_addr m.sensor_id addr ∧
    (handle_activity_ack s m addr now).1.probe = (popA s.probe m.sensor_id).2 ∧
    (handle_activity_ack s m addr now).1.tokens = s.tokens ∧
    (handle_activity_ack s m addr now).2
      = reconOut m.sensor_id (lookupA s.probe m.sensor_id) := by
  refine ⟨?_, ?_, ?_, ?_, ?_⟩ <;> simp [handle_activity_ack, h1, h2, popA_fst]

theorem handle_data_backup_parts (s : ServerState) (m : Msg) (addr : Addr) (now : Time) :
    (handle_data_backup s m addr now).1.last_seen
      = updateA s.last_seen m.sensor_id now ∧
    (handle_data_backup s m addr now).1.id_type
      = updateA s.id_type m.sensor_id (m.sensor_type.getD "UNKNOWN") ∧
    (handle_data_backup s m addr now).1.tokens = s.tokens ∧
    (handle_data_backup s m addr now).1.active_by_type = s.active_by_type ∧
    (handle_data_backup s m addr now).1.last_resend_req = s.last_resend_req ∧
    (handle_data_backup s m addr now).1.probe = (popA s.probe m.sensor_id).2 := by
  refine ⟨?_, ?_, ?_, ?_, ?_, ?_⟩ <;>
    (simp only [handle_data_backup]
     split
     · rfl
     · split
       · rfl
       · split
         · rfl
         · rfl)

theorem handle_data_backup_valid_outs (s : ServerState) (m : Msg) (addr : Addr)
    (now : Time) (h1 : (sidOk m.sensor_id && tokOk m.token) = true)
    (h2 : pyEqO (lookupA s.tokens m.sensor_id) m.token = true) :
    (handle_data_backup s m addr now).2
      = reconOut m.sensor_id (lookupA s.probe m.sensor_id) ++
        (if crcOkBackup m.crc32 (m.data.getD (.obj []))
         then [Out.data_ack m.sensor_id] else [Out.request_resend m.sensor_id]) ∧
    (handle_data_backup s m addr now).1.sensor_addr
      = updateA s.sensor_addr m.sensor_id addr := by
  by_cases hcrc : crcOkBackup m.crc32 (m.data.getD (.obj [])) = true
  · constructor <;> simp [handle_data_backup, h1, h2, hcrc, popA_fst]
  · have hcrc' : crcOkBackup m.crc32 (m.data.getD (.obj [])) = false :=
      (Bool.eq_false_iff).mpr hcrc
    constructor <;> simp [handle_data_backup, h1, h2, hcrc', popA_fst]

theorem isoHdlcBitStep_lt {c : Nat} (hc : c < 2 ^ 32) (bit : Nat) :
    isoHdlcBitStep c bit < 2 ^ 32 := by
  unfold isoHdlcBitStep
  apply Nat.xor_lt_two_pow
  · rw [Nat.shiftRight_one]
    omega
  · split <;> norm_num

theorem foldBits_lt (bits : List Nat) : ∀ c, c < 2 ^ 32 →
    bits.foldl isoHdlcBitStep c < 2 ^ 32 := by
  induction bits with
  | nil => intro c hc; exact hc
  | cons b bs ih => intro c hc; exact ih _ (isoHdlcBitStep_lt hc b)

theorem crc32_iso_hdlc_lt (msg : List Nat) : crc32_iso_hdlc msg < 2 ^ 32 := by
  unfold crc32_iso_hdlc
  exact Nat.xor_lt_two_pow (foldBits_lt _ _ (by norm_num)) (by norm_num)

/-! ## The claims -/

/-- Claim C3 (confirmed): for every payload object, `checksum(payload)`
equals the CRC-32/ISO-HDLC value — reflected polynomial 0xEDB88320,
initial value 0xFFFFFFFF, final xor 0xFFFFFFFF, bit-reflected input and
output — computed over the UTF-8 bytes of the payload's canonical
serialization (no inter-token whitespace, field names sorted, recursively;
`dumps`), and the result is a 32-bit unsigned integer.  The last conjunct
ties the reference function to the named standard by its published check
value over the bytes of `"123456789"`. -/
theorem C3_checksum_is_iso_hdlc :
    (∀ j : Json, crc32_of_json_data j = crc32_iso_hdlc (strBytes (dumps j)) ∧
      crc32_of_json_data j < 2 ^ 32) ∧
    crc32_iso_hdlc ((String.toList "123456789").map Char.toNat) = 0xCBF43926 := by
  constructor
  · intro j
    constructor
    · unfold crc32_of_json_data
      rw [crc32_bytes_eq_iso_hdlc _ (strBytes_lt (dumps j))]
      have h1 : (0xFFFFFFFF : Nat) = 2 ^ 32 - 1 := by norm_num
      rw [h1, Nat.and_pow_two_sub_one_of_lt_two_pow (crc32_iso_hdlc_lt _)]
    · unfold crc32_of_json_data
      exact lt_of_le_of_lt Nat.and_le_right (by norm_num)
  · decide

/-- Claim C9 (counterexample): the checksum is not sensitive to every
value change — CRC-32 is a 32-bit digest and collides; the payloads
`{"v": "plumless"}` and `{"v": "buckeroo"}` differ only in the value of
field `v` yet have the same checksum. -/
theorem C9_counterexample :
    crc32_of_json_data (.obj [("v", .str "plumless")])
      = crc32_of_json_data (.obj [("v", .str "buckeroo")]) ∧
    ("plumless" : String) ≠ "buckeroo" := by
  constructor
  · decide
  · decide

/-- Claim C9 (amended): the checksum is deterministic and invariant to
the field insertion order of the payload (keys distinct, as in any
Python dictionary); sensitivity to every value change fails
(`C9_counterexample`), since a 32-bit digest necessarily collides. -/
theorem C9_checksum_amended :
    (∀ p q : Json, p = q → crc32_of_json_data p = crc32_of_json_data q) ∧
    (∀ l1 l2 : List (String × Json), l1.Perm l2 → (l1.map Prod.fst).Nodup →
      crc32_of_json_data (.obj l1) = crc32_of_json_data (.obj l2)) := by
  constructor
  · intro p q h
    rw [h]
  · intro l1 l2 hp hn
    unfold crc32_of_json_data
    rw [dumps_perm_invariant hp hn]

/-- Claim C9 witness: order invariance evaluated on a two-field payload
given in both insertion orders. -/
theorem C9_checksum_witness :
    crc32_of_json_data (.obj [("hum", .int 55), ("temp", .int 21)])
      = crc32_of_json_data (.obj [("temp", .int 21), ("hum", .int 55)]) :=
  C9_checksum_amended.2 _ _ (List.Perm.swap _ _ _) (by decide)

/-- Claim C1 (counterexample): after registering identity `A` in
category `T` and then handling a valid-token data message from `A`
carrying `sensor_type` `U`, the reachable registry maps category `T` to
`A` while `A`'s stored type is `U` — the claimed invariant "stored
category equals `c`" fails on a reachable state. -/
theorem C1_counterexample :
    Reach (handle_data (handle_register initState
        ⟨some "A", some "T", none, none, none⟩ "a1" 123456 0).1
      ⟨some "A", some "U", some (.int 123456), none, none⟩ "a1" 1).1 ∧
    lookupA (handle_data (handle_register initState
        ⟨some "A", some "T", none, none, none⟩ "a1" 123456 0).1
      ⟨some "A", some "U", some (.int 123456), none, none⟩ "a1" 1).1.active_by_type "T"
      = some "A" ∧
    lookupA (handle_data (handle_register initState
        ⟨some "A", some "T", none, none, none⟩ "a1" 123456 0).1
      ⟨some "A", some "U", some (.int 123456), none, none⟩ "a1" 1).1.id_type (some "A")
      = some "U" ∧
    ("U" : String) ≠ "T" :=
  ⟨Reach.data (Reach.reg Reach.init (by decide) (by decide)),
   by decide, by decide, by decide⟩

/-- Claim C1 (amended): at every reachable state, every identity holding
a category slot has a complete sensor record (a token, an address and a
stored type), and each category maps to at most one active identity.
The claim's further assertion that the stored type always equals the
active category is refuted by `C1_counterexample`: a valid-token data
message (or a re-registration under another category) overwrites
`id_type` without clearing the old `active_by_type` slot. -/
theorem C1_category_records :
    ∀ s : ServerState, Reach s →
      (∀ c id, lookupA s.active_by_type c = some id →
        (lookupA s.tokens (some id)).isSome ∧
        (lookupA s.sensor_addr (some id)).isSome ∧
        (lookupA s.id_type (some id)).isSome) ∧
      (∀ c id1 id2, lookupA s.active_by_type c = some id1 →
        lookupA s.active_by_type c = some id2 → id1 = id2) := by
  intro s hs
  refine ⟨(reach_inv hs).1, ?_⟩
  intro c id1 id2 h1 h2
  rw [h1] at h2
  exact Option.some.inj h2

/-- Claim C1 witness: the record-existence conclusion evaluated on the
state reached by one accepted registration. -/
theorem C1_category_records_witness :
    (lookupA (handle_register initState
        ⟨some "A", some "T", none, none, none⟩ "a1" 123456 0).1.tokens (some "A")).isSome ∧
    (lookupA (handle_register initState
        ⟨some "A", some "T", none, none, none⟩ "a1" 123456 0).1.sensor_addr
        (some "A")).isSome ∧
    (lookupA (handle_register initState
        ⟨some "A", some "T", none, none, none⟩ "a1" 123456 0).1.id_type
        (some "A")).isSome :=
  (C1_category_records _ (Reach.reg Reach.init (by decide) (by decide))).1
    "T" "A" (by decide)

/-- Claim C2 (confirmed): a register request carrying a (truthy)
identity is accepted when its category slot is unset or already owned by
that identity — the fresh token (the `randint` draw in `server.py`, the
`TOKEN_{int(time.time())}` string in `backup_server.py`) is stored and
returned in a `register_ack`, the address, type and category slot are
upserted and `last_seen` becomes `now`; when another identity owns the
slot, both servers reply `register_denied` naming that identity and
change nothing. -/
theorem C2_register_accept_deny (s : ServerState) (m : Msg) (addr : Addr) (tok : Int)
    (now : Time) (sid : String) (hsid : m.sensor_id = some sid) (hne : sid ≠ "") :
    ((lookupA s.active_by_type (m.sensor_type.getD "UNKNOWN") = none ∨
      lookupA s.active_by_type (m.sensor_type.getD "UNKNOWN") = some sid) →
      (handle_register s m addr tok now).2 = [.register_ack sid (.int tok)] ∧
      lookupA (handle_register s m addr tok now).1.tokens (some sid) = some (.int tok) ∧
      lookupA (handle_register s m addr tok now).1.sensor_addr (some sid) = some addr ∧
      lookupA (handle_register s m addr tok now).1.id_type (some sid)
        = some (m.sensor_type.getD "UNKNOWN") ∧
      lookupA (handle_register s m addr tok now).1.active_by_type
        (m.sensor_type.getD "UNKNOWN") = some sid ∧
      lookupA (handle_register s m addr tok now).1.last_seen (some sid) = some now ∧
      (handle_register_backup s m addr now).2
        = [.register_ack sid (.str ("TOKEN_" ++ intRepr now))] ∧
      lookupA (handle_register_backup s m addr now).1.tokens (some sid)
        = some (.str ("TOKEN_" ++ intRepr now))) ∧
    (∀ active, lookupA s.active_by_type (m.sensor_type.getD "UNKNOWN") = some active →
      active ≠ sid →
      handle_register s m addr tok now
        = (s, [.register_denied (m.sensor_type.getD "UNKNOWN") active]) ∧
      handle_register_backup s m addr now
        = (s, [.register_denied (m.sensor_type.getD "UNKNOWN") active])) := by
  constructor
  · intro hact
    rcases hact with hact | hact <;>
      refine ⟨?_, ?_, ?_, ?_, ?_, ?_, ?_, ?_⟩ <;>
        simp [handle_register, handle_register_backup, acceptRegister, hsid, hne, hact,
          sidOk, lookupA_updateA_self]
  · intro active hact hne'
    constructor <;>
      simp [handle_register, handle_register_backup, hsid, hne, hact, sidOk, hne']

/-- Claim C2 witness: an accepted registration on the empty registry and
a denied one against an occupied category, evaluated concretely. -/
theorem C2_register_witness :
    (handle_register initState ⟨some "A", some "T", none, none, none⟩ "a1" 123456 0).2
      = [.register_ack "A" (.int 123456)] ∧
    handle_register (handle_register initState
        ⟨some "A", some "T", none, none, none⟩ "a1" 123456 0).1
      ⟨some "B", some "T", none, none, none⟩ "a2" 222222 5
      = ((handle_register initState
          ⟨some "A", some "T", none, none, none⟩ "a1" 123456 0).1,
         [.register_denied "T" "A"]) :=
  ⟨(C2_register_accept_deny initState ⟨some "A", some "T", none, none, none⟩
      "a1" 123456 0 "A" rfl (by decide) |>.1 (Or.inl (by decide))).1,
   (C2_register_accept_deny (handle_register initState
        ⟨some "A", some "T", none, none, none⟩ "a1" 123456 0).1
      ⟨some "B", some "T", none, none, none⟩ "a2" 222222 5 "B" rfl (by decide)
      |>.2 "A" (by decide) (by decide)).1⟩

/-- Claim C4 (counterexample): `backup_server.py` compares the received
`crc32` with plain `==` and no `isinstance` check, so a float that is
numerically equal to the checksum passes the integrity check and draws a
`data_ack` — the claim requires any non-integer value to fail and draw a
`request_resend`.  The run registers identity `A` (token `TOKEN_0`) and
sends it a data message whose `crc32` is the float 2745614147.0 while
`checksum({}) = 2745614147`. -/
theorem C4_counterexample :
    Reach (handle_register_backup initState
      ⟨some "A", some "T", none, none, none⟩ "a1" 0).1 ∧
    (handle_data_backup (handle_register_backup initState
        ⟨some "A", some "T", none, none, none⟩ "a1" 0).1
      ⟨some "A", some "T", some (.str "TOKEN_0"), some (.obj []),
        some (.float 2745614147)⟩ "a1" 20).2 = [.data_ack (some "A")] ∧
    crc32_of_json_data (.obj []) = 2745614147 ∧
    pyIsInstInt (.float 2745614147) = false :=
  ⟨Reach.regB Reach.init, by decide, by decide, by decide⟩

/-- Claim C4 (amended): after a passed token check, `server.py` accepts
exactly the values that are Python `int`s — including `bool`s, which are
`int`s in Python — equal to `checksum(data)`; `backup_server.py` accepts
any value Python-`==` to the checksum, so also a numerically equal
float.  Absent values, strings and mismatched numbers fail in both, and
only a passed check yields a `data_ack`. -/
theorem C4_integrity_check_amended :
    (∀ (d : Json) (n : Int),
      (crcOk (some (.int n)) d = true ↔ n = crc32_of_json_data d) ∧
      (crcOkBackup (some (.int n)) d = true ↔ n = crc32_of_json_data d)) ∧
    (∀ (d : Json) (b : Bool),
      (crcOk (some (.bool b)) d = true ↔
        (if b then (1 : Int) else 0) = crc32_of_json_data d) ∧
      (crcOkBackup (some (.bool b)) d = true ↔
        (if b then (1 : Int) else 0) = crc32_of_json_data d)) ∧
    (∀ (d : Json) (q : Rat),
      crcOk (some (.float q)) d = false ∧
      (crcOkBackup (some (.float q)) d = true ↔ q = (crc32_of_json_data d : Rat))) ∧
    (∀ (d : Json) (t : String),
      crcOk (some (.str t)) d = false ∧ crcOkBackup (some (.str t)) d = false) ∧
    (∀ d : Json, crcOk none d = false ∧ crcOkBackup none d = false) ∧
    (∀ (s : ServerState) (m : Msg) (addr : Addr) (now : Time),
      (sidOk m.sensor_id && tokOk m.token) = true →
      pyEqO (lookupA s.tokens m.sensor_id) m.token = true →
      (Out.data_ack m.sensor_id ∈ (handle_data s m addr now).2 ↔
        crcOk m.crc32 (m.data.getD (.obj [])) = true) ∧
      (Out.data_ack m.sensor_id ∈ (handle_data_backup s m addr now).2 ↔
        crcOkBackup m.crc32 (m.data.getD (.obj [])) = true)) := by
  refine ⟨?_, ?_, ?_, ?_, ?_, ?_⟩
  · intro d n
    constructor <;> simp [crcOk, crcOkBackup, pyIsInstInt, pyEqO, pyEq, pyNum] <;>
      constructor <;> intro h <;> exact_mod_cast h
  · intro d b
    cases b <;>
      constructor <;> simp [crcOk, crcOkBackup, pyIsInstInt, pyEqO, pyEq, pyNum] <;>
        constructor <;> intro h <;> exact_mod_cast h
  · intro d q
    refine ⟨by simp [crcOk, pyIsInstInt], ?_⟩
    simp [crcOkBackup, pyEqO, pyEq, pyNum]
  · intro d t
    exact ⟨by simp [crcOk, pyIsInstInt], by simp [crcOkBackup, pyEqO, pyEq, pyNum]⟩
  · intro d
    exact ⟨rfl, rfl⟩
  · intro s m addr now h1 h2
    constructor
    · obtain ⟨-, -, -, -, -, -, houts⟩ := handle_data_valid_parts s m addr now h1 h2
      rcases houts with ⟨he, hc⟩ | ⟨he, hc, -⟩ | ⟨he, hc, -⟩ <;> rw [he, hc] <;>
        rcases reconOut_shape m.sensor_id (lookupA s.probe m.sensor_id) with hr | hr <;>
          simp [hr]
    · obtain ⟨he, -⟩ := handle_data_backup_valid_outs s m addr now h1 h2
      rw [he]
      rcases reconOut_shape m.sensor_id (lookupA s.probe m.sensor_id) with hr | hr <;>
        by_cases hc : crcOkBackup m.crc32 (m.data.getD (.obj [])) = true <;>
          simp [hr, hc]

/-- Claim C4 witness: the characterizations and the handler linkage
evaluated on a registered sensor sending `{}` with the exact integer
checksum. -/
theorem C4_integrity_witness :
    crcOk (some (.int 2745614147)) (.obj []) = true ∧
    Out.data_ack (some "A") ∈ (handle_data (handle_register initState
        ⟨some "A", some "T", none, none, none⟩ "a1" 123456 0).1
      ⟨some "A", some "T", some (.int 123456), some (.obj []),
        some (.int 2745614147)⟩ "a1" 20).2 :=
  ⟨(C4_integrity_check_amended.1 (.obj []) 2745614147).1.mpr (by decide),
   ((C4_integrity_check_amended.2.2.2.2.2 (handle_register initState
        ⟨some "A", some "T", none, none, none⟩ "a1" 123456 0).1
      ⟨some "A", some "T", some (.int 123456), some (.obj []),
        some (.int 2745614147)⟩ "a1" 20 (by decide) (by decide)).1).mpr (by decide)⟩

theorem handle_data_backup_rejected (s : ServerState) (m : Msg) (addr : Addr)
    (now : Time) (h : dataTokenRejected s m) :
    (handle_data_backup s m addr now).1.sensor_addr = s.sensor_addr ∧
    (handle_data_backup s m addr now).2
      = reconOut m.sensor_id (lookupA s.probe m.sensor_id) ++
        [.invalid_token m.sensor_id] := by
  by_cases h1 : (sidOk m.sensor_id && tokOk m.token) = false
  · constructor <;> simp [handle_data_backup, h1, popA_fst]
  · have h1' : (sidOk m.sensor_id && tokOk m.token) = true := by
      revert h1
      cases sidOk m.sensor_id && tokOk m.token <;> simp
    have h2 : pyEqO (lookupA s.tokens m.sensor_id) m.token = false := by
      rcases h with h' | h'
      · exact absurd h' h1
      · exact h'
    constructor <;> simp [handle_data_backup, h1', h2, popA_fst]

/-- Claim C5 (counterexample): `backup_server.py` refreshes `last_seen`
(and `id_type`, and pops the probe) before validating the token, so a
data message with a wrong token does change the registry: after
registering `A` at time 0, a wrong-token data frame at time 20 draws the
`invalid_token` reply yet moves `A`'s `last_seen` from 0 to 20 — the
claim requires no state change. -/
theorem C5_counterexample :
    Reach (handle_register_backup initState
      ⟨some "A", some "T", none, none, none⟩ "a1" 0).1 ∧
    pyEqO (lookupA (handle_register_backup initState
        ⟨some "A", some "T", none, none, none⟩ "a1" 0).1.tokens (some "A"))
      (some (.int 999)) = false ∧
    (handle_data_backup (handle_register_backup initState
        ⟨some "A", some "T", none, none, none⟩ "a1" 0).1
      ⟨some "A", some "T", some (.int 999), none, none⟩ "a1" 20).2
      = [.invalid_token (some "A")] ∧
    lookupA (handle_register_backup initState
        ⟨some "A", some "T", none, none, none⟩ "a1" 0).1.last_seen (some "A")
      = some 0 ∧
    lookupA (handle_data_backup (handle_register_backup initState
        ⟨some "A", some "T", none, none, none⟩ "a1" 0).1
      ⟨some "A", some "T", some (.int 999), none, none⟩ "a1" 20).1.last_seen (some "A")
      = some 20 :=
  ⟨Reach.regB Reach.init, by decide, by decide, by decide, by decide⟩

/-- Claim C5 (amended): on a data message whose token check fails
(absent, falsy or mismatched token, or missing identity), `server.py`
replies `invalid_token` and leaves the state exactly unchanged;
`backup_server.py` also replies `invalid_token` and leaves tokens,
categories, addresses and the resend map unchanged, but has already
refreshed `last_seen` and `id_type` and popped the probe entry for the
message's identity (`C5_counterexample`). -/
theorem C5_invalid_token_amended (s : ServerState) (m : Msg) (addr : Addr) (now : Time)
    (h : dataTokenRejected s m) :
    handle_data s m addr now = (s, [.invalid_token m.sensor_id]) ∧
    (handle_data_backup s m addr now).1.tokens = s.tokens ∧
    (handle_data_backup s m addr now).1.active_by_type = s.active_by_type ∧
    (handle_data_backup s m addr now).1.sensor_addr = s.sensor_addr ∧
    (handle_data_backup s m addr now).1.last_resend_req = s.last_resend_req ∧
    (handle_data_backup s m addr now).1.last_seen
      = updateA s.last_seen m.sensor_id now ∧
    (handle_data_backup s m addr now).1.id_type
      = updateA s.id_type m.sensor_id (m.sensor_type.getD "UNKNOWN") ∧
    (handle_data_backup s m addr now).1.probe = (popA s.probe m.sensor_id).2 ∧
    (handle_data_backup s m addr now).2
      = reconOut m.sensor_id (lookupA s.probe m.sensor_id) ++
        [.invalid_token m.sensor_id] := by
  obtain ⟨hls, hit, htk, habt, hlr, hpr⟩ := handle_data_backup_parts s m addr now
  obtain ⟨haddr, houts⟩ := handle_data_backup_rejected s m addr now h
  exact ⟨handle_data_rejected s m addr now h, htk, habt, haddr, hlr, hls, hit, hpr, houts⟩

/-- Claim C5 witness: the `server.py` conclusion evaluated on a
registered sensor receiving a wrong-token frame. -/
theorem C5_invalid_token_witness :
    handle_data (handle_register initState
        ⟨some "A", some "T", none, none, none⟩ "a1" 123456 0).1
      ⟨some "A", some "T", some (.int 999), none, none⟩ "a1" 20
      = ((handle_register initState
          ⟨some "A", some "T", none, none, none⟩ "a1" 123456 0).1,
         [.invalid_token (some "A")]) :=
  (C5_invalid_token_amended (handle_register initState
      ⟨some "A", some "T", none, none, none⟩ "a1" 123456 0).1
    ⟨some "A", some "T", some (.int 999), none, none⟩ "a1" 20
    (Or.inr (by decide))).1

/-- Claim C6 (code_bug): in `server.py` a `request_resend` for an
identity is emitted only when at least one second has passed since the
time recorded in `_last_resend_req`, and emitting records the new time —
successive resend requests are therefore spaced at least 1 second apart.
`backup_server.py` initializes `_last_resend_req` (line 30) but its data
handler never consults it: in the run below, a registered sensor's two
corrupted frames carrying the same arrival second both draw a
`request_resend`, zero seconds apart, contradicting the claim the rest
of the code and the spec state. -/
theorem C6_resend_debounce :
    (∀ (s : ServerState) (m : Msg) (addr : Addr) (now t : Time),
      lookupA s.last_resend_req m.sensor_id = some t →
      Out.request_resend m.sensor_id ∈ (handle_data s m addr now).2 →
      1 ≤ now - t ∧
      lookupA (handle_data s m addr now).1.last_resend_req m.sensor_id = some now) ∧
    (Out.request_resend (some "A") ∈ (handle_data_backup (handle_register_backup
        initState ⟨some "A", some "T", none, none, none⟩ "a1" 0).1
      ⟨some "A", some "T", some (.str "TOKEN_0"), some (.obj []), some (.int 1)⟩
      "a1" 20).2 ∧
     Out.request_resend (some "A") ∈ (handle_data_backup (handle_data_backup
        (handle_register_backup initState
          ⟨some "A", some "T", none, none, none⟩ "a1" 0).1
        ⟨some "A", some "T", some (.str "TOKEN_0"), some (.obj []), some (.int 1)⟩
        "a1" 20).1
      ⟨some "A", some "T", some (.str "TOKEN_0"), some (.obj []), some (.int 1)⟩
      "a1" 20).2) := by
  constructor
  · intro s m addr now t hl hmem
    by_cases h1 : (sidOk m.sensor_id && tokOk m.token) = true
    · by_cases h2 : pyEqO (lookupA s.tokens m.sensor_id) m.token = true
      · obtain ⟨-, -, -, -, -, -, houts⟩ := handle_data_valid_parts s m addr now h1 h2
        rcases houts with ⟨he, -⟩ | ⟨he, hc, hdeb⟩ | ⟨he, -, -⟩
        · rw [he] at hmem
          rcases reconOut_shape m.sensor_id (lookupA s.probe m.sensor_id) with hr | hr <;>
            simp [hr] at hmem
        · refine ⟨?_, ?_⟩
          · simp only [hl, Option.getD_some] at hdeb
            exact hdeb
          · have hrec : (handle_data s m addr now).1.last_resend_req
                = updateA s.last_resend_req m.sensor_id now := by
              simp [handle_data, h1, h2, hc, hdeb]
            rw [hrec]
            exact lookupA_updateA_self _ _ _
        · rw [he] at hmem
          rcases reconOut_shape m.sensor_id (lookupA s.probe m.sensor_id) with hr | hr <;>
            simp [hr] at hmem
      · have hrej : dataTokenRejected s m := Or.inr ((Bool.eq_false_iff).mpr h2)
        rw [handle_data_rejected s m addr now hrej] at hmem
        simp at hmem
    · have hrej : dataTokenRejected s m := Or.inl ((Bool.eq_false_iff).mpr h1)
      rw [handle_data_rejected s m addr now hrej] at hmem
      simp at hmem
  · exact ⟨by decide, by decide⟩

/-- Claim C6 witness: the `server.py` spacing conclusion evaluated on a
second corrupted frame arriving one second after a recorded resend
request. -/
theorem C6_resend_witness :
    1 ≤ (21 : Time) - 20 ∧
    lookupA (handle_data (handle_data (handle_register initState
          ⟨some "A", some "T", none, none, none⟩ "a1" 123456 0).1
        ⟨some "A", some "T", some (.int 123456), some (.obj []), some (.int 1)⟩
        "a1" 20).1
      ⟨some "A", some "T", some (.int 123456), some (.obj []), some (.int 1)⟩
      "a1" 21).1.last_resend_req (some "A") = some 21 :=
  C6_resend_debounce.1 (handle_data (handle_register initState
        ⟨some "A", some "T", none, none, none⟩ "a1" 123456 0).1
      ⟨some "A", some "T", some (.int 123456), some (.obj []), some (.int 1)⟩
      "a1" 20).1
    ⟨some "A", some "T", some (.int 123456), some (.obj []), some (.int 1)⟩
    "a1" 21 20 (by decide) (by decide)

/-- Claim C7 (confirmed): at every reachable state (of either server —
the monitor bodies are identical), every probe entry's attempt counter
is at most 10; an entry that has reached 10 draws no further
`activity_check` for its identity from a monitor pass at any time, and
the pass leaves the counter at 10 — only a valid data message or
heartbeat acknowledgment removes the entry (see `C8_reconnected_once`),
after which a fresh episode starts at 0 attempts. -/
theorem C7_attempts_bound :
    ∀ s : ServerState, Reach s → ∀ (sid : K) (st : ProbeState),
      lookupA s.probe sid = some st →
      st.attempts ≤ 10 ∧
      (st.attempts = 10 → ∀ now : Time,
        (∀ o ∈ (monitorTick now s).2, ∀ t tk a, o ≠ Out.activity_check sid t tk a) ∧
        ∃ st', lookupA (monitorTick now s).1.probe sid = some st' ∧
          st'.attempts = 10) := by
  intro s hs sid st hl
  obtain ⟨-, hpb, -⟩ := reach_inv hs
  refine ⟨hpb (sid, st) (lookupA_mem hl), ?_⟩
  intro h10 now
  have h := tickFold_at10 now sid (s.tokens.map (·.1)) (s, []) ⟨st, hl, h10⟩ (by simp)
  exact ⟨h.2, h.1⟩

/-- Claim C7 witness: the attempts bound evaluated on the probe created
by a monitor pass 20 seconds after a registration. -/
theorem C7_attempts_witness :
    (⟨1, true, 21, 0⟩ : ProbeState).attempts ≤ 10 ∧
    ((⟨1, true, 21, 0⟩ : ProbeState).attempts = 10 → ∀ now : Time,
      (∀ o ∈ (monitorTick now (monitorTick 20 (handle_register initState
          ⟨some "A", some "T", none, none, none⟩ "a1" 123456 0).1).1).2,
        ∀ t tk a, o ≠ Out.activity_check (some "A") t tk a) ∧
      ∃ st', lookupA (monitorTick now (monitorTick 20 (handle_register initState
          ⟨some "A", some "T", none, none, none⟩ "a1" 123456 0).1).1).1.probe
          (some "A") = some st' ∧ st'.attempts = 10) :=
  C7_attempts_bound _ (Reach.tick (Reach.reg Reach.init (by decide) (by decide)))
    (some "A") ⟨1, true, 21, 0⟩ (by decide)

theorem handle_data_recon_iff (s : ServerState) (m : Msg) (addr : Addr) (now : Time)
    (h1 : (sidOk m.sensor_id && tokOk m.token) = true)
    (h2 : pyEqO (lookupA s.tokens m.sensor_id) m.token = true) :
    Out.reconnected m.sensor_id ∈ (handle_data s m addr now).2 ↔
      ∃ st, lookupA s.probe m.sensor_id = some st ∧ 0 < st.attempts := by
  obtain ⟨-, -, -, -, -, -, houts⟩ := handle_data_valid_parts s m addr now h1 h2
  rcases houts with ⟨he, -⟩ | ⟨he, -, -⟩ | ⟨he, -, -⟩
  · rw [he]
    constructor
    · intro h
      rcases List.mem_append.mp h with h | h
      · exact mem_reconOut.mp h
      · simp at h
    · intro h
      exact List.mem_append.mpr (Or.inl (mem_reconOut.mpr h))
  · rw [he]
    constructor
    · intro h
      rcases List.mem_append.mp h with h | h
      · exact mem_reconOut.mp h
      · simp at h
    · intro h
      exact List.mem_append.mpr (Or.inl (mem_reconOut.mpr h))
  · rw [he]
    exact mem_reconOut

/-- Claim C8 (confirmed): a RECONNECTED notification is only produced by
the two probe-clearing paths (valid heartbeat acknowledgment or valid
data message), never by the monitor pass; each clearing emits it exactly
when the popped probe had made at least one attempt, removes the probe
entry (so a second acknowledgment in the same episode finds none and
emits nothing — at most once per contiguous episode), and refreshes
`last_seen` and the stored address. -/
theorem C8_reconnected_once :
    ∀ s : ServerState, Reach s → ∀ (m : Msg) (addr : Addr) (now : Time),
      (∀ o ∈ (monitorTick now s).2, ∀ j, o ≠ Out.reconnected j) ∧
      (sidOk m.sensor_id = true →
        pyEqO (lookupA s.tokens m.sensor_id) m.token = true →
        (Out.reconnected m.sensor_id ∈ (handle_activity_ack s m addr now).2 ↔
          ∃ st, lookupA s.probe m.sensor_id = some st ∧ 0 < st.attempts) ∧
        lookupA (handle_activity_ack s m addr now).1.probe m.sensor_id = none ∧
        lookupA (handle_activity_ack s m addr now).1.last_seen m.sensor_id = some now ∧
        lookupA (handle_activity_ack s m addr now).1.sensor_addr m.sensor_id
          = some addr) ∧
      ((sidOk m.sensor_id && tokOk m.token) = true →
        pyEqO (lookupA s.tokens m.sensor_id) m.token = true →
        (Out.reconnected m.sensor_id ∈ (handle_data s m addr now).2 ↔
          ∃ st, lookupA s.probe m.sensor_id = some st ∧ 0 < st.attempts) ∧
        lookupA (handle_data s m addr now).1.probe m.sensor_id = none ∧
        lookupA (handle_data s m addr now).1.last_seen m.sensor_id = some now ∧
        lookupA (handle_data s m addr now).1.sensor_addr m.sensor_id = some addr) := by
  intro s hs m addr now
  obtain ⟨-, -, hnd⟩ := reach_inv hs
  refine ⟨monitorTick_no_recon now s, ?_, ?_⟩
  · intro h1 h2
    obtain ⟨hls, haddr, hpr, -, houts⟩ := handle_ack_valid_parts s m addr now h1 h2
    refine ⟨?_, ?_, ?_, ?_⟩
    · rw [houts]
      exact mem_reconOut
    · rw [hpr]
      exact lookupA_popA_self hnd m.sensor_id
    · rw [hls]
      exact lookupA_updateA_self _ _ _
    · rw [haddr]
      exact lookupA_updateA_self _ _ _
  · intro h1 h2
    obtain ⟨hls, haddr, -, -, -, hpr, -⟩ := handle_data_valid_parts s m addr now h1 h2
    refine ⟨handle_data_recon_iff s m addr now h1 h2, ?_, ?_, ?_⟩
    · rw [hpr]
      exact lookupA_popA_self hnd m.sensor_id
    · rw [hls]
      exact lookupA_updateA_self _ _ _
    · rw [haddr]
      exact lookupA_updateA_self _ _ _

/-- Claim C8 witness: a valid acknowledgment that clears the single
probe created by a monitor pass announces RECONNECTED, removes the probe
and refreshes the record, evaluated concretely. -/
theorem C8_reconnected_witness :
    (Out.reconnected (some "A") ∈ (handle_activity_ack (monitorTick 20
        (handle_register initState
          ⟨some "A", some "T", none, none, none⟩ "a1" 123456 0).1).1
      ⟨some "A", some "T", some (.int 123456), none, none⟩ "a2" 21).2 ↔
      ∃ st, lookupA (monitorTick 20 (handle_register initState
          ⟨some "A", some "T", none, none, none⟩ "a1" 123456 0).1).1.probe (some "A")
        = some st ∧ 0 < st.attempts) ∧
    lookupA (handle_activity_ack (monitorTick 20 (handle_register initState
        ⟨some "A", some "T", none, none, none⟩ "a1" 123456 0).1).1
      ⟨some "A", some "T", some (.int 123456), none, none⟩ "a2" 21).1.probe (some "A")
      = none ∧
    lookupA (handle_activity_ack (monitorTick 20 (handle_register initState
        ⟨some "A", some "T", none, none, none⟩ "a1" 123456 0).1).1
      ⟨some "A", some "T", some (.int 123456), none, none⟩ "a2" 21).1.last_seen
      (some "A") = some 21 ∧
    lookupA (handle_activity_ack (monitorTick 20 (handle_register initState
        ⟨some "A", some "T", none, none, none⟩ "a1" 123456 0).1).1
      ⟨some "A", some "T", some (.int 123456), none, none⟩ "a2" 21).1.sensor_addr
      (some "A") = some "a2" :=
  (C8_reconnected_once _ (Reach.tick (Reach.reg Reach.init (by decide) (by decide)))
    ⟨some "A", some "T", some (.int 123456), none, none⟩ "a2" 21).2.1
    (by decide) (by decide)

/-- Claim C10 (confirmed): a valid-token data message refreshes
`last_seen` and the address and clears any probe state (announcing
RECONNECTED when the cleared probe had attempts) before the checksum is
examined, so a corrupted frame still counts as proof of life: with the
integrity check failing, no `data_ack` is sent, a `request_resend` is
sent exactly when the 1-second debounce window is open, and the registry
still shows the sensor alive at `now`.  `backup_server.py` behaves the
same (its refresh happens even earlier), with its own equality test and
no debounce. -/
theorem C10_refresh_before_integrity :
    ∀ s : ServerState, Reach s → ∀ (m : Msg) (addr : Addr) (now : Time),
      ((sidOk m.sensor_id && tokOk m.token) = true →
        pyEqO (lookupA s.tokens m.sensor_id) m.token = true →
        crcOk m.crc32 (m.data.getD (.obj [])) = false →
        lookupA (handle_data s m addr now).1.last_seen m.sensor_id = some now ∧
        lookupA (handle_data s m addr now).1.sensor_addr m.sensor_id = some addr ∧
        lookupA (handle_data s m addr now).1.probe m.sensor_id = none ∧
        (Out.reconnected m.sensor_id ∈ (handle_data s m addr now).2 ↔
          ∃ st, lookupA s.probe m.sensor_id = some st ∧ 0 < st.attempts) ∧
        Out.data_ack m.sensor_id ∉ (handle_data s m addr now).2 ∧
        (Out.request_resend m.sensor_id ∈ (handle_data s m addr now).2 ↔
          1 ≤ now - (lookupA s.last_resend_req m.sensor_id).getD 0)) ∧
      ((sidOk m.sensor_id && tokOk m.token) = true →
        pyEqO (lookupA s.tokens m.sensor_id) m.token = true →
        crcOkBackup m.crc32 (m.data.getD (.obj [])) = false →
        lookupA (handle_data_backup s m addr now).1.last_seen m.sensor_id = some now ∧
        lookupA (handle_data_backup s m addr now).1.probe m.sensor_id = none ∧
        Out.data_ack m.sensor_id ∉ (handle_data_backup s m addr now).2 ∧
        Out.request_resend m.sensor_id ∈ (handle_data_backup s m addr now).2) := by
  intro s hs m addr now
  obtain ⟨-, -, hnd⟩ := reach_inv hs
  constructor
  · intro h1 h2 hc
    obtain ⟨hls, haddr, -, -, -, hpr, houts⟩ := handle_data_valid_parts s m addr now h1 h2
    refine ⟨?_, ?_, ?_, handle_data_recon_iff s m addr now h1 h2, ?_, ?_⟩
    · rw [hls]
      exact lookupA_updateA_self _ _ _
    · rw [haddr]
      exact lookupA_updateA_self _ _ _
    · rw [hpr]
      exact lookupA_popA_self hnd m.sensor_id
    · rcases houts with ⟨-, hc'⟩ | ⟨he, -, -⟩ | ⟨he, -, -⟩
      · rw [hc'] at hc
        cases hc
      · rw [he]
        rcases reconOut_shape m.sensor_id (lookupA s.probe m.sensor_id) with hr | hr <;>
          simp [hr]
      · rw [he]
        rcases reconOut_shape m.sensor_id (lookupA s.probe m.sensor_id) with hr | hr <;>
          simp [hr]
    · rcases houts with ⟨-, hc'⟩ | ⟨he, -, hdeb⟩ | ⟨he, -, hdeb⟩
      · rw [hc'] at hc
        cases hc
      · rw [he]
        rcases reconOut_shape m.sensor_id (lookupA s.probe m.sensor_id) with hr | hr <;>
          simp [hr, hdeb]
      · rw [he]
        rcases reconOut_shape m.sensor_id (lookupA s.probe m.sensor_id) with hr | hr <;>
          simp [hr, hdeb]
  · intro h1 h2 hc
    obtain ⟨hls, -, -, -, -, hpr⟩ := handle_data_backup_parts s m addr now
    obtain ⟨houts, -⟩ := handle_data_backup_valid_outs s m addr now h1 h2
    refine ⟨?_, ?_, ?_, ?_⟩
    · rw [hls]
      exact lookupA_updateA_self _ _ _
    · rw [hpr]
      exact lookupA_popA_self hnd m.sensor_id
    · rw [houts, hc]
      rcases reconOut_shape m.sensor_id (lookupA s.probe m.sensor_id) with hr | hr <;>
        simp [hr]
    · rw [houts, hc]
      rcases reconOut_shape m.sensor_id (lookupA s.probe m.sensor_id) with hr | hr <;>
        simp [hr]

/-- Claim C10 witness: a probed sensor's corrupted frame (integrity
check failing) still refreshes its liveness record and draws a
`request_resend`, evaluated concretely. -/
theorem C10_refresh_witness :
    lookupA (handle_data (monitorTick 20 (handle_register initState
        ⟨some "A", some "T", none, none, none⟩ "a1" 123456 0).1).1
      ⟨some "A", some "T", some (.int 123456), some (.obj []), some (.int 1)⟩
      "a1" 21).1.last_seen (some "A") = some 21 ∧
    lookupA (handle_data (monitorTick 20 (handle_register initState
        ⟨some "A", some "T", none, none, none⟩ "a1" 123456 0).1).1
      ⟨some "A", some "T", some (.int 123456), some (.obj []), some (.int 1)⟩
      "a1" 21).1.sensor_addr (some "A") = some "a1" ∧
    lookupA (handle_data (monitorTick 20 (handle_register initState
        ⟨some "A", some "T", none, none, none⟩ "a1" 123456 0).1).1
      ⟨some "A", some "T", some (.int 123456), some (.obj []), some (.int 1)⟩
      "a1" 21).1.probe (some "A") = none ∧
    (Out.reconnected (some "A") ∈ (handle_data (monitorTick 20 (handle_register
        initState ⟨some "A", some "T", none, none, none⟩ "a1" 123456 0).1).1
      ⟨some "A", some "T", some (.int 123456), some (.obj []), some (.int 1)⟩
      "a1" 21).2 ↔
      ∃ st, lookupA (monitorTick 20 (handle_register initState
          ⟨some "A", some "T", none, none, none⟩ "a1" 123456 0).1).1.probe (some "A")
        = some st ∧ 0 < st.attempts) ∧
    Out.data_ack (some "A") ∉ (handle_data (monitorTick 20 (handle_register
        initState ⟨some "A", some "T", none, none, none⟩ "a1" 123456 0).1).1
      ⟨some "A", some "T", some (.int 123456), some (.obj []), some (.int 1)⟩
      "a1" 21).2 ∧
    (Out.request_resend (some "A") ∈ (handle_data (monitorTick 20 (handle_register
        initState ⟨some "A", some "T", none, none, none⟩ "a1" 123456 0).1).1
      ⟨some "A", some "T", some (.int 123456), some (.obj []), some (.int 1)⟩
      "a1" 21).2 ↔
      1 ≤ (21 : Time) - (lookupA (monitorTick 20 (handle_register initState
          ⟨some "A", some "T", none, none, none⟩ "a1" 123456 0).1).1.last_resend_req
          (some "A")).getD 0) :=
  (C10_refresh_before_integrity _
    (Reach.tick (Reach.reg Reach.init (by decide) (by decide)))
    ⟨some "A", some "T", some (.int 123456), some (.obj []), some (.int 1)⟩
    "a1" 21).1 (by decide) (by decide) (by decide)

end FIITMeteo
